import Mathlib

/-!
# rtc_publisher: a shallow embedding of `src/net/webrtc/rtc_publisher.cpp`

The publisher is modelled as a record of its member variables.  Every member
function becomes a function from the state (and its arguments) to the new state
together with the list of calls it makes on its collaborators (the receive
context `rtp_handler_`, the jitter buffer `jb_handler_`, the room, the session),
in program order.  Calls whose implementation lives in other translation units
are recorded as `Event`s and not interpreted.

A function returns `Option` when the source has a step whose result this file
does not determine: a call through a null `rtp_handler_`, a division by a zero
clock rate, an access outside the bytes of a unit or outside `extra_data[2048]`.
`none` stands for such a step; no state is reached through it.
-/

namespace RtcPublisher

/-! ## Data model -/

/-- An RTP packet, restricted to the fields that `rtc_publisher.cpp` reads or
writes (`get_ssrc`, `get_payload_type`, `set_mid_extension_id`,
`set_abs_time_extension_id`). A value stands for the packet object behind the
`rtp_packet*`. -/
structure rtp_packet where
  ssrc : Nat
  payload_type : Nat
  mid_extension_id : Nat
  abs_time_extension_id : Nat
  deriving DecidableEq, Repr

/-- A sender report handed to `on_handle_rtcp_sr`; only its source identifier is kept. -/
structure rtcp_sr_packet where
  ssrc : Nat
  deriving DecidableEq, Repr

/-- The jitter-buffer unit (`rtp_packet_info`): the packet it owns. -/
structure rtp_packet_info where
  pkt : rtp_packet
  deriving DecidableEq, Repr

/-- The receive context as the publisher sees it: the arguments of
`new rtp_recv_stream(this, media_type_, ssrc, payloadtype_, false, clock_rate)`
and the two values optionally installed by `set_rtx_ssrc` /
`set_rtx_payloadtype` right after construction. -/
structure rtp_recv_stream where
  media_type : String
  ssrc : Nat
  payloadtype : Nat
  is_rtx : Bool
  clock_rate : Int
  rtx_ssrc : Option Nat
  rtx_payloadtype : Option Nat
  deriving DecidableEq, Repr

/-- The picture-loss-indication packet built by `request_keyframe`
(`set_sender_ssrc`, `set_media_ssrc`); its wire encoding belongs to `rtcp_pspli`. -/
structure rtcp_pspli where
  sender_ssrc : Nat
  media_ssrc : Nat
  deriving DecidableEq, Repr

/-- Modelled from the spec: the media-kind tag `av_type_` of a media packet
(`utils/av/media_packet.hpp` is not part of the sources). The code only tests
`av_type_ == MEDIA_VIDEO_TYPE`. -/
inductive MEDIA_PKT_TYPE where
  | MEDIA_UNKOWN_TYPE
  | MEDIA_VIDEO_TYPE
  | MEDIA_AUDIO_TYPE
  deriving DecidableEq, Repr

/-- Modelled from the spec: the container-format tag `fmt_type_` of a media packet
(`utils/av/media_packet.hpp` is not part of the sources). -/
inductive MEDIA_FORMAT_TYPE where
  | MEDIA_FORMAT_UNKOWN
  | MEDIA_FORMAT_RAW
  | MEDIA_FORMAT_FLV
  deriving DecidableEq, Repr

/-- An access unit (`MEDIA_PACKET`). `buffer` holds the `data_len()` valid bytes of
`buffer_ptr_`; `dts_`/`pts_` are 64-bit signed (printed with `%ld`). -/
structure MEDIA_PACKET where
  av_type_ : MEDIA_PKT_TYPE
  codec_type_ : Nat
  fmt_type_ : MEDIA_FORMAT_TYPE
  dts_ : Int
  pts_ : Int
  is_key_frame_ : Bool
  is_seq_hdr_ : Bool
  key_ : String
  app_ : String
  streamname_ : String
  buffer : List Nat
  deriving DecidableEq, Repr

/-- Which depacketizer the constructor installed in `pack_handle_`. -/
inductive pack_handle where
  | pack_handle_h264
  | pack_handle_audio
  deriving DecidableEq, Repr

/-- The member variables of `rtc_publisher`. -/
structure rtc_publisher where
  roomId_ : String
  uid_ : String
  media_type_ : String
  stream_type_ : String
  rtp_ssrc_ : Nat
  rtx_ssrc_ : Nat
  clock_rate_ : Int
  payloadtype_ : Nat
  rtx_payloadtype_ : Nat
  has_rtx_ : Bool
  mid_extension_id_ : Int
  abs_time_extension_id_ : Int
  rtp_handler_ : Option rtp_recv_stream
  pack_handle_ : Option pack_handle
  key_count_ : Nat
  first_flv_audio_ : Bool
  pps_data_ : List Nat
  sps_data_ : List Nat
  deriving DecidableEq, Repr

/-- The calls the publisher makes on its collaborators. -/
inductive Event where
  | new_rtp_recv_stream (media_type : String) (ssrc : Nat) (payloadtype : Nat)
      (is_rtx : Bool) (clock_rate : Int)
  | set_rtx_ssrc (ssrc : Nat)
  | set_rtx_payloadtype (pt : Nat)
  | on_handle_rtp (pkt : rtp_packet)
  | on_handle_rtx_packet (pkt : rtp_packet)
  | recv_on_handle_rtcp_sr (sr : rtcp_sr_packet)
  | recv_on_timer
  | input_rtp_packet (roomId uid media_type stream_type : String) (clock_rate : Int)
      (pkt : rtp_packet)
  | on_rtppacket_publisher2room (pkt : rtp_packet)
  | send_rtcp_data_in_dtls (pkt : rtcp_pspli)
  | pack_input_rtp_packet (pkt_ptr : rtp_packet_info)
  | on_rtmp_callback (roomId uid stream_type : String) (pkt : MEDIA_PACKET)
  | log_warnf
  | log_errorf
  deriving DecidableEq, Repr

/-- Parts of the repository that `rtc_publisher.cpp` uses but that are declared
elsewhere. -/
structure Decls where
  /-- Modelled from the spec: `rtc_publisher.hpp` (absent) declares the tick
  counter `key_count_`; it is taken to be an unsigned machine integer of
  `key_count_bits` bits. -/
  key_count_bits : Nat
  /-- Modelled from the spec: `get_video_extradata` (absent) builds the container
  header payload from the cached PPS and SPS bytes, in this argument order. -/
  get_video_extradata : List Nat → List Nat → List Nat
  /-- Modelled from the spec: `flv_muxer::add_flv_media_header`
  (`format/flv/flv_mux.hpp`, absent) is the header-injection step of the container
  multiplexer (spec 4.4). The spec says neither which bytes it injects nor where;
  `flv_media_header_buffer pkt` is the raw buffer of the unit `pkt` after the
  step. -/
  flv_media_header_buffer : MEDIA_PACKET → List Nat

/-! ## Classification of events -/

/-- Calls made on the receive context (`rtp_handler_`), its construction included. -/
def is_recv_call : Event → Bool
  | .new_rtp_recv_stream _ _ _ _ _ => true
  | .set_rtx_ssrc _ => true
  | .set_rtx_payloadtype _ => true
  | .on_handle_rtp _ => true
  | .on_handle_rtx_packet _ => true
  | .recv_on_handle_rtcp_sr _ => true
  | .recv_on_timer => true
  | _ => false

/-- Constructions of a receive context. -/
def is_recv_new : Event → Bool
  | .new_rtp_recv_stream _ _ _ _ _ => true
  | _ => false

/-- Calls on the jitter buffer (`jb_handler_.input_rtp_packet`). -/
def is_jb_call : Event → Bool
  | .input_rtp_packet _ _ _ _ _ _ => true
  | _ => false

/-- Calls on the room fan-out (`room_->on_rtppacket_publisher2room`). -/
def is_room_rtp_call : Event → Bool
  | .on_rtppacket_publisher2room _ => true
  | _ => false

/-- The control packets sent through `session_->send_rtcp_data_in_dtls`, in order. -/
def sent_rtcp : List Event → List rtcp_pspli
  | [] => []
  | .send_rtcp_data_in_dtls p :: es => p :: sent_rtcp es
  | _ :: es => sent_rtcp es

/-- The units handed to `room_->on_rtmp_callback`, in order. -/
def rtmp_output : List Event → List MEDIA_PACKET
  | [] => []
  | .on_rtmp_callback _ _ _ p :: es => p :: rtmp_output es
  | _ :: es => rtmp_output es

/-! ## Machine integers -/

/-- The cast `(uint8_t)x` of an `int`. -/
def to_uint8 (x : Int) : Nat := (x % 256).toNat

/-- A value reduced to the 64-bit signed range (two's complement). -/
def wrap_int64 (x : Int) : Int := (x + 2 ^ 63) % 2 ^ 64 - 2 ^ 63

/-- Representable as `int64_t`. -/
def in_int64 (x : Int) : Prop := -(2 ^ 63) ≤ x ∧ x < 2 ^ 63

instance (x : Int) : Decidable (in_int64 x) := by
  unfold in_int64; exact inferInstance

/-! ## Packet demultiplexer: `on_handle_rtppacket` (lines 121-160) -/

/-- Lines 123-124: the extension ids written into the packet. -/
def set_extension_ids (st : rtc_publisher) (pkt : rtp_packet) : rtp_packet :=
  { pkt with
    mid_extension_id := to_uint8 st.mid_extension_id_
    abs_time_extension_id := to_uint8 st.abs_time_extension_id_ }

/-- Line 126: the packet carries the primary pair. -/
def is_rtp (st : rtc_publisher) (pkt : rtp_packet) : Bool :=
  pkt.ssrc == st.rtp_ssrc_ && pkt.payload_type == st.payloadtype_

/-- Line 135: redundancy is declared and the packet carries the redundancy pair. -/
def is_rtx (st : rtc_publisher) (pkt : rtp_packet) : Bool :=
  st.has_rtx_ && pkt.ssrc == st.rtx_ssrc_ && pkt.payload_type == st.rtx_payloadtype_

/-- Lines 128-132: the receive context built for a first primary packet. -/
def new_recv_stream (st : rtc_publisher) (pkt : rtp_packet) : rtp_recv_stream :=
  { media_type := st.media_type_
    ssrc := pkt.ssrc
    payloadtype := st.payloadtype_
    is_rtx := false
    clock_rate := st.clock_rate_
    rtx_ssrc := if st.has_rtx_ then some st.rtx_ssrc_ else none
    rtx_payloadtype := if st.has_rtx_ then some st.rtx_payloadtype_ else none }

/-- Lines 128-132 as calls: the constructor, then the two setters when `has_rtx()`. -/
def new_recv_stream_calls (st : rtc_publisher) (pkt : rtp_packet) : List Event :=
  Event.new_rtp_recv_stream st.media_type_ pkt.ssrc st.payloadtype_ false st.clock_rate_ ::
    (if st.has_rtx_ then
      [Event.set_rtx_ssrc st.rtx_ssrc_, Event.set_rtx_payloadtype st.rtx_payloadtype_]
     else [])

/-- Lines 148-159: what follows the classification unless the function returned:
the jitter buffer input and the room fan-out (the debug log is omitted). -/
def forward_calls (st : rtc_publisher) (pkt : rtp_packet) : List Event :=
  [Event.input_rtp_packet st.roomId_ st.uid_ st.media_type_ st.stream_type_ st.clock_rate_ pkt,
   Event.on_rtppacket_publisher2room pkt]

/-- `rtc_publisher::on_handle_rtppacket`. -/
def on_handle_rtppacket (st : rtc_publisher) (pkt0 : rtp_packet) :
    rtc_publisher × List Event :=
  let pkt := set_extension_ids st pkt0
  if is_rtp st pkt then
    match st.rtp_handler_ with
    | none =>
      ({ st with rtp_handler_ := some (new_recv_stream st pkt) },
        new_recv_stream_calls st pkt ++ [Event.on_handle_rtp pkt] ++ forward_calls st pkt)
    | some _ => (st, [Event.on_handle_rtp pkt] ++ forward_calls st pkt)
  else if is_rtx st pkt then
    match st.rtp_handler_ with
    | some _ => (st, [Event.on_handle_rtx_packet pkt] ++ forward_calls st pkt)
    | none => (st, [Event.log_warnf] ++ forward_calls st pkt)
  else
    (st, [Event.log_errorf])

/-! ## Sender reports: `on_handle_rtcp_sr` (lines 162-164) -/

/-- `rtc_publisher::on_handle_rtcp_sr`: the call goes through `rtp_handler_`
without a null test, so it has no defined result while the receive context is
absent. -/
def on_handle_rtcp_sr (st : rtc_publisher) (sr_pkt : rtcp_sr_packet) :
    Option (rtc_publisher × List Event) :=
  match st.rtp_handler_ with
  | none => none
  | some _ => some (st, [Event.recv_on_handle_rtcp_sr sr_pkt])

/-! ## Keyframe-recovery scheduler (lines 174-232) -/

/-- `rtc_publisher::request_keyframe` (lines 174-188); the state is not touched. -/
def request_keyframe (st : rtc_publisher) (media_ssrc : Nat) : List Event :=
  if st.rtp_ssrc_ ≠ media_ssrc then
    [Event.log_errorf]
  else
    [Event.send_rtcp_data_in_dtls { sender_ssrc := 1, media_ssrc := media_ssrc }]

/-- `rtc_publisher::on_timer` (lines 190-197). `++key_count_` is evaluated first
and wraps at the width of the counter. -/
def on_timer (E : Decls) (st : rtc_publisher) : rtc_publisher × List Event :=
  let recv := match st.rtp_handler_ with
    | some _ => [Event.recv_on_timer]
    | none => []
  let st1 := { st with key_count_ := (st.key_count_ + 1) % 2 ^ E.key_count_bits }
  if st1.key_count_ % 6 = 0 ∧ st.media_type_ = "video" then
    (st1, recv ++ request_keyframe st1 st1.rtp_ssrc_)
  else
    (st1, recv)

/-- `rtc_publisher::rtp_packet_reset` (lines 199-211); `none` is a null `pkt_ptr`. -/
def rtp_packet_reset (st : rtc_publisher) (pkt_ptr : Option rtp_packet_info) :
    rtc_publisher × List Event :=
  match pkt_ptr with
  | none => (st, [])
  | some info =>
    if st.media_type_ ≠ "video" then (st, [])
    else (st, Event.log_warnf :: request_keyframe st info.pkt.ssrc)

/-- `rtc_publisher::rtp_packet_output` (lines 213-222). -/
def rtp_packet_output (st : rtc_publisher) (pkt_ptr : rtp_packet_info) :
    rtc_publisher × List Event :=
  match st.pack_handle_ with
  | some _ => (st, [Event.pack_input_rtp_packet pkt_ptr])
  | none => (st, [])

/-- `rtc_publisher::pack_handle_reset` (lines 224-232); `none` is a null `pkt_ptr`. -/
def pack_handle_reset (st : rtc_publisher) (pkt_ptr : Option rtp_packet_info) :
    rtc_publisher × List Event :=
  match pkt_ptr with
  | none => (st, [])
  | some info => (st, Event.log_warnf :: request_keyframe st info.pkt.ssrc)

/-! ## Output tagger: `set_rtmp_info` (lines 323-334) -/

/-- Lines 330-331: `v * 1000 / clock_rate_` in `int64_t`. The product is reduced to
64 bits (two's complement, what the compiled multiplication yields), the quotient
truncates toward zero; a zero divisor and the quotient `INT64_MIN / -1` have no
defined result. -/
def rescale (clock_rate : Int) (v : Int) : Option Int :=
  if clock_rate = 0 then none
  else if wrap_int64 (v * 1000) = -(2 ^ 63) ∧ clock_rate = -1 then none
  else some (Int.tdiv (wrap_int64 (v * 1000)) clock_rate)

/-- Modelled from the spec: `flv_muxer::add_flv_media_header` (`format/flv/flv_mux.hpp`,
absent) is the header-injection step of the container multiplexer (spec 4.4): it
rewrites the raw buffer of the unit, by the absent declaration
`flv_media_header_buffer`, and leaves the other properties of the unit as they
are. -/
def add_flv_media_header (E : Decls) (pkt : MEDIA_PACKET) : MEDIA_PACKET :=
  { pkt with buffer := E.flv_media_header_buffer pkt }

/-- Lines 324-331: the unit with the routing keys and the timestamps `dts`, `pts`
written, as `set_rtmp_info` hands it to the header-injection step. -/
def with_rtmp_info (st : rtc_publisher) (pkt : MEDIA_PACKET) (dts pts : Int) :
    MEDIA_PACKET :=
  { pkt with
    app_ := st.roomId_
    streamname_ := st.uid_
    key_ := st.roomId_ ++ "/" ++ st.uid_
    dts_ := dts
    pts_ := pts }

/-- `rtc_publisher::set_rtmp_info`. -/
def set_rtmp_info (E : Decls) (st : rtc_publisher) (pkt : MEDIA_PACKET) :
    Option MEDIA_PACKET :=
  match rescale st.clock_rate_ pkt.dts_, rescale st.clock_rate_ pkt.pts_ with
  | some dts, some pts => some (add_flv_media_header E (with_rtmp_info st pkt dts pts))
  | _, _ => none

/-! ## Depacketizer output: `media_packet_output` (lines 234-321) -/

/-- Modelled from the spec: `std::make_shared<MEDIA_PACKET>()`, an empty packet
(`utils/av/media_packet.hpp` is not part of the sources). -/
def MEDIA_PACKET.make : MEDIA_PACKET :=
  { av_type_ := .MEDIA_UNKOWN_TYPE
    codec_type_ := 0
    fmt_type_ := .MEDIA_FORMAT_UNKOWN
    dts_ := 0
    pts_ := 0
    is_key_frame_ := false
    is_seq_hdr_ := false
    key_ := ""
    app_ := ""
    streamname_ := ""
    buffer := [] }

/-- Modelled from the spec: `MEDIA_PACKET::copy_properties` (absent) copies every
property of the source unit, its timestamps included, and leaves the buffer of
the receiving packet alone. -/
def MEDIA_PACKET.copy_properties (self src : MEDIA_PACKET) : MEDIA_PACKET :=
  { src with buffer := self.buffer }

/-- Modelled from the spec: the structural parameter-set subtype (H.264 NAL unit
type 7); the constant is declared in an absent header. -/
def kAvcNaluTypeSPS : Nat := 7

/-- Modelled from the spec: the picture-level parameter-set subtype (H.264 NAL unit
type 8); the constant is declared in an absent header. -/
def kAvcNaluTypePPS : Nat := 8

/-- Modelled from the spec: `write_4bytes` (`utils/byte_stream.hpp`, absent) stores
a 32-bit value as four bytes, most significant first. -/
def write_4bytes (v : Nat) : List Nat :=
  [v / 2 ^ 24 % 256, v / 2 ^ 16 % 256, v / 2 ^ 8 % 256, v % 256]

/-- Line 272: `(uint32_t)data_len() - 4` in 32-bit unsigned arithmetic. -/
def nalu_len (data_len : Nat) : Nat := (data_len % 2 ^ 32 + 2 ^ 32 - 4) % 2 ^ 32

/-- Lines 272-274: the four length bytes are copied over the first four bytes of
the unit's buffer; a buffer holding fewer than four bytes has no room for them. -/
def write_nalu_len (buffer : List Nat) : Option (List Nat) :=
  if buffer.length < 4 then none
  else some (write_4bytes (nalu_len buffer.length) ++ buffer.drop 4)

/-- Lines 279-281: the constant Opus header blob. -/
def opus_seq_data : List Nat :=
  [0x4f, 0x70, 0x75, 0x73, 0x48, 0x65, 0x61, 0x64,
   0x01, 0x02, 0x38, 0x01, 0x80, 0xbb, 0x00, 0x00,
   0x00, 0x00, 0x00]

/-- Lines 249-255 and 297-304: the synthesized header unit: a fresh packet that
receives `data`, the properties of `pkt`, the two flags, `set_rtmp_info` and the
FLV tag. -/
def make_seq_pkt (E : Decls) (st : rtc_publisher) (pkt : MEDIA_PACKET) (data : List Nat) :
    Option MEDIA_PACKET :=
  let seq0 := { MEDIA_PACKET.make with buffer := MEDIA_PACKET.make.buffer ++ data }
  let seq1 := seq0.copy_properties pkt
  let seq2 := { seq1 with is_key_frame_ := false, is_seq_hdr_ := true }
  (set_rtmp_info E st seq2).map fun seq3 => { seq3 with fmt_type_ := .MEDIA_FORMAT_FLV }

/-- Lines 272-274 and 317-318: the video unit itself gets its length bytes and
`set_rtmp_info` and is handed to `on_rtmp_callback` after the calls in `before`. -/
def video_emit (E : Decls) (st : rtc_publisher) (pkt : MEDIA_PACKET)
    (before : List Event) :
    Option (rtc_publisher × List Event) :=
  match write_nalu_len pkt.buffer with
  | none => none
  | some buf =>
    match set_rtmp_info E st { pkt with buffer := buf } with
    | none => none
    | some out =>
      some (st, before ++ [Event.on_rtmp_callback st.roomId_ st.uid_ st.stream_type_ out])

/-- Lines 310-313: the audio unit gets `set_rtmp_info` and the FLV tag and is handed
to `on_rtmp_callback` after the calls in `before`. -/
def audio_emit (E : Decls) (st : rtc_publisher) (pkt : MEDIA_PACKET)
    (before : List Event) :
    Option (rtc_publisher × List Event) :=
  match set_rtmp_info E st pkt with
  | none => none
  | some out =>
    some (st, before ++ [Event.on_rtmp_callback st.roomId_ st.uid_ st.stream_type_
      { out with fmt_type_ := .MEDIA_FORMAT_FLV }])

/-- Lines 258-271: a parameter-set unit updates the cache and returns. The subtype
is read at offset 4; a buffer without that byte has no defined result. -/
def video_seq_hdr (st : rtc_publisher) (pkt : MEDIA_PACKET) :
    Option (rtc_publisher × List Event) :=
  match pkt.buffer[4]? with
  | none => none
  | some b =>
    let nalu_type := b &&& 0x1f
    if nalu_type = kAvcNaluTypeSPS % 256 then
      some ({ st with sps_data_ := pkt.buffer.drop 4 }, [])
    else if nalu_type = kAvcNaluTypePPS % 256 then
      some ({ st with pps_data_ := pkt.buffer.drop 4 }, [])
    else
      some (st, [Event.log_errorf])

/-- `rtc_publisher::media_packet_output`. The sample-rate index computed in lines
282-295 only feeds `audio_flv_header`, which is never used, and is left out. -/
def media_packet_output (E : Decls) (st : rtc_publisher) (pkt : MEDIA_PACKET) :
    Option (rtc_publisher × List Event) :=
  if pkt.av_type_ = .MEDIA_VIDEO_TYPE then
    if pkt.is_key_frame_ then
      let extra_data := E.get_video_extradata st.pps_data_ st.sps_data_
      if 2048 < extra_data.length then none
      else
        match make_seq_pkt E st pkt extra_data with
        | none => none
        | some seq_pkt =>
          video_emit E st pkt
            [Event.on_rtmp_callback st.roomId_ st.uid_ st.stream_type_ seq_pkt]
    else if pkt.is_seq_hdr_ then
      video_seq_hdr st pkt
    else
      video_emit E st pkt []
  else
    if st.first_flv_audio_ then
      match make_seq_pkt E st pkt opus_seq_data with
      | none => none
      | some seq_pkt =>
        audio_emit E { st with first_flv_audio_ := false } pkt
          [Event.on_rtmp_callback st.roomId_ st.uid_ st.stream_type_ seq_pkt]
    else
      audio_emit E st pkt []

/-! ## Operation sequences -/

/-- The operations through which collaborators enter the publisher. -/
inductive Op where
  | rtppacket (pkt : rtp_packet)
  | rtcp_sr (sr_pkt : rtcp_sr_packet)
  | timer
  | jb_reset (pkt_ptr : Option rtp_packet_info)
  | jb_output (pkt_ptr : rtp_packet_info)
  | pack_reset (pkt_ptr : Option rtp_packet_info)
  | media_output (pkt : MEDIA_PACKET)
  deriving DecidableEq, Repr

/-- One operation; `none` when the operation has no defined result. -/
def step (E : Decls) (st : rtc_publisher) : Op → Option (rtc_publisher × List Event)
  | .rtppacket pkt => some (on_handle_rtppacket st pkt)
  | .rtcp_sr sr_pkt => on_handle_rtcp_sr st sr_pkt
  | .timer => some (on_timer E st)
  | .jb_reset pkt_ptr => some (rtp_packet_reset st pkt_ptr)
  | .jb_output pkt_ptr => some (rtp_packet_output st pkt_ptr)
  | .pack_reset pkt_ptr => some (pack_handle_reset st pkt_ptr)
  | .media_output pkt => media_packet_output E st pkt

/-- A finite sequence of operations, with the calls of all of them in order. -/
def run (E : Decls) (st : rtc_publisher) : List Op → Option (rtc_publisher × List Event)
  | [] => some (st, [])
  | op :: ops =>
    match step E st op with
    | none => none
    | some (st1, evs1) =>
      match run E st1 ops with
      | none => none
      | some (st2, evs2) => some (st2, evs1 ++ evs2)

/-- The operation is a packet carrying the primary pair of `st`. -/
def Op.is_rtp (st : rtc_publisher) : Op → Bool
  | .rtppacket pkt => RtcPublisher.is_rtp st pkt
  | _ => false

/-- The operation is a tick. -/
def Op.is_timer : Op → Bool
  | .timer => true
  | _ => false

/-! ## Concrete inputs -/

/-- A video publisher with redundancy declared, before any packet was handled. -/
def video_pub : rtc_publisher :=
  { roomId_ := "room"
    uid_ := "user"
    media_type_ := "video"
    stream_type_ := "camera"
    rtp_ssrc_ := 1111
    rtx_ssrc_ := 2222
    clock_rate_ := 90000
    payloadtype_ := 96
    rtx_payloadtype_ := 97
    has_rtx_ := true
    mid_extension_id_ := 1
    abs_time_extension_id_ := 3
    rtp_handler_ := none
    pack_handle_ := some .pack_handle_h264
    key_count_ := 0
    first_flv_audio_ := true
    pps_data_ := []
    sps_data_ := [] }

/-- An audio publisher without redundancy, before any packet was handled. -/
def audio_pub : rtc_publisher :=
  { video_pub with
    media_type_ := "audio"
    rtp_ssrc_ := 3333
    rtx_ssrc_ := 0
    clock_rate_ := 48000
    payloadtype_ := 111
    rtx_payloadtype_ := 0
    has_rtx_ := false
    pack_handle_ := some .pack_handle_audio }

/-- A packet with the given source identifier and payload kind. -/
def mk_pkt (ssrc payload_type : Nat) : rtp_packet :=
  { ssrc := ssrc, payload_type := payload_type, mid_extension_id := 0,
    abs_time_extension_id := 0 }

/-- Modelled from the spec: an instance of the header-injection step
`flv_muxer::add_flv_media_header` (absent; spec 4.4), used where a concrete step
is needed: a container header, five bytes for a video unit and two for any
other, is put in front of the bytes of the unit. -/
def flv_header_in_front (pkt : MEDIA_PACKET) : List Nat :=
  (if pkt.av_type_ = .MEDIA_VIDEO_TYPE then
    [if pkt.is_key_frame_ || pkt.is_seq_hdr_ then 0x17 else 0x27,
     if pkt.is_seq_hdr_ then 0x00 else 0x01, 0x00, 0x00, 0x00]
   else [0xaf, 0x01]) ++ pkt.buffer

/-- Absent declarations instantiated with a tick counter of `w` bits, an extradata
builder that concatenates SPS and PPS and the header-injection step
`flv_header_in_front`. -/
def decls_bits (w : Nat) : Decls :=
  { key_count_bits := w
    get_video_extradata := fun pps sps => sps ++ pps
    flv_media_header_buffer := flv_header_in_front }

/-- Absent declarations with a 32-bit tick counter. -/
def decls32 : Decls := decls_bits 32

/-- The history made of `n` ticks and nothing else. -/
def ticks (n : Nat) : List Op := List.replicate n Op.timer

/-- A short history: an early redundancy packet, a tick, the first primary packet,
a sender report, a second primary packet and a loss signal. -/
def sample_ops : List Op :=
  [.rtppacket (mk_pkt 2222 97), .timer, .rtppacket (mk_pkt 1111 96), .rtcp_sr ⟨1111⟩,
   .rtppacket (mk_pkt 1111 96), .jb_reset (some ⟨mk_pkt 1111 96⟩)]

/-- The publisher and the calls after `sample_ops` on `video_pub`. -/
def sample_result : rtc_publisher × List Event :=
  (run decls32 video_pub sample_ops).getD (video_pub, [])

/-- A video unit with the given flags, timestamp and buffer. -/
def video_unit (is_key is_hdr : Bool) (ts : Int) (buffer : List Nat) : MEDIA_PACKET :=
  { MEDIA_PACKET.make with
    av_type_ := .MEDIA_VIDEO_TYPE
    is_key_frame_ := is_key
    is_seq_hdr_ := is_hdr
    dts_ := ts
    pts_ := ts
    buffer := buffer }

/-- An audio unit with the given timestamp and buffer. -/
def audio_unit (ts : Int) (buffer : List Nat) : MEDIA_PACKET :=
  { MEDIA_PACKET.make with
    av_type_ := .MEDIA_AUDIO_TYPE
    dts_ := ts
    pts_ := ts
    buffer := buffer }

/-- The unit leaves `media_packet_output` every buffer access it needs: a video
unit holds its four leading bytes (five for a parameter-set unit, whose subtype
byte is read at offset 4) and the header built for a keyframe fits
`extra_data[2048]`. Audio units need nothing. -/
def unit_fits (E : Decls) (st : rtc_publisher) (pkt : MEDIA_PACKET) : Prop :=
  pkt.av_type_ = .MEDIA_VIDEO_TYPE →
    if pkt.is_key_frame_ = true then
      4 ≤ pkt.buffer.length ∧
        (E.get_video_extradata st.pps_data_ st.sps_data_).length ≤ 2048
    else if pkt.is_seq_hdr_ = true then 5 ≤ pkt.buffer.length
    else 4 ≤ pkt.buffer.length

instance (E : Decls) (st : rtc_publisher) (pkt : MEDIA_PACKET) :
    Decidable (unit_fits E st pkt) := by
  unfold unit_fits; exact inferInstance

/-! ## Construction and teardown (lines 22-99) -/

/-- Modelled from the spec: one entry of `rtp_encodings` in the track descriptor
(`rtc_media_info.hpp` is not part of the sources): codec name, payload kind and
clock rate. -/
structure RTP_ENCODING where
  codec : String
  payload : Int
  clock_rate : Int
  deriving DecidableEq, Repr

/-- Modelled from the spec: one source-identifier group of the track descriptor
(`rtc_media_info.hpp` is not part of the sources). -/
structure SSRC_GROUPS where
  ssrcs : List Nat
  deriving DecidableEq, Repr

/-- Modelled from the spec: one source-identifier info entry of the track descriptor
(`rtc_media_info.hpp` is not part of the sources). -/
structure SSRC_INFO where
  ssrc : Nat
  deriving DecidableEq, Repr

/-- Modelled from the spec: one header-extension assignment of the track descriptor
(`rtc_media_info.hpp` is not part of the sources). -/
structure HEADER_EXT where
  uri : String
  value : Int
  deriving DecidableEq, Repr

/-- Modelled from the spec: the track descriptor `MEDIA_RTC_INFO`
(`rtc_media_info.hpp` is not part of the sources), with the fields the constructor
reads. -/
structure MEDIA_RTC_INFO where
  media_type : String
  rtp_encodings : List RTP_ENCODING
  ssrc_groups : List SSRC_GROUPS
  ssrc_infos : List SSRC_INFO
  header_extentions : List HEADER_EXT
  deriving DecidableEq, Repr

/-- How a construction ends: with a publisher, with the `std::out_of_range` thrown by
`at(0)`, or in an `operator[]` outside a vector, which has no defined result. -/
inductive construct_result where
  | built (p : rtc_publisher)
  | out_of_range
  | undefined
  deriving DecidableEq, Repr

/-- Lines 36-43: the loop over `rtp_encodings`. -/
def ctor_encodings (st : rtc_publisher) : List RTP_ENCODING → rtc_publisher
  | [] => st
  | enc_item :: rest =>
    ctor_encodings
      (if enc_item.codec = "rtx" then
        { st with has_rtx_ := true, rtx_payloadtype_ := to_uint8 enc_item.payload }
       else
        { st with payloadtype_ := to_uint8 enc_item.payload })
      rest

/-- Lines 59-65: the loop over `ssrc_infos`. `index` is the local of line 58; no
statement of the loop changes it, so every iteration sees the value it started
with. -/
def ctor_ssrc_infos (index : Nat) (st : rtc_publisher) : List SSRC_INFO → rtc_publisher
  | [] => st
  | info :: rest =>
    ctor_ssrc_infos index
      (if index = 0 then { st with rtp_ssrc_ := info.ssrc }
       else { st with rtx_ssrc_ := info.ssrc })
      rest

/-- Lines 45-66: the choice of the source identifiers. -/
def ctor_ssrcs (st : rtc_publisher) (media_info : MEDIA_RTC_INFO) : construct_result :=
  match media_info.ssrc_groups with
  | [] => .built (ctor_ssrc_infos 0 st media_info.ssrc_infos)
  | group :: _ =>
    if st.has_rtx_ then
      match group.ssrcs with
      | a :: b :: _ => .built { st with rtp_ssrc_ := a, rtx_ssrc_ := b }
      | [a] => .built { st with rtp_ssrc_ := a }
      | [] => .undefined
    else
      match group.ssrcs with
      | a :: _ => .built { st with rtp_ssrc_ := a }
      | [] => .out_of_range

/-- Lines 68-74: the loop over `header_extentions`. -/
def ctor_extensions (st : rtc_publisher) : List HEADER_EXT → rtc_publisher
  | [] => st
  | ext_item :: rest =>
    ctor_extensions
      (if ext_item.uri = "urn:ietf:params:rtp-hdrext:sdes:mid" then
        { st with mid_extension_id_ := ext_item.value }
       else if ext_item.uri =
          "http://www.webrtc.org/experiments/rtp-hdrext/abs-send-time" then
        { st with abs_time_extension_id_ := ext_item.value }
       else st)
      rest

/-- The constructor `rtc_publisher::rtc_publisher` (lines 22-87). `init` holds the
members as the in-class initialisers of the absent `rtc_publisher.hpp` leave them
before the body runs. The timer start and the logs are left out. -/
def construct (init : rtc_publisher) (roomId uid : String) (media_info : MEDIA_RTC_INFO) :
    construct_result :=
  match media_info.rtp_encodings with
  | [] => .undefined
  | enc0 :: _ =>
    let st0 := { init with
      roomId_ := roomId
      uid_ := uid
      media_type_ := media_info.media_type
      clock_rate_ := enc0.clock_rate
      has_rtx_ := false }
    let st1 := ctor_encodings st0 media_info.rtp_encodings
    match ctor_ssrcs st1 media_info with
    | .built st2 =>
      let st3 := ctor_extensions st2 media_info.header_extentions
      .built { st3 with
        pack_handle_ :=
          if st3.media_type_ = "video" then some .pack_handle_h264
          else some .pack_handle_audio }
    | .out_of_range => .out_of_range
    | .undefined => .undefined

/-- Modelled from the spec: the members before the constructor body runs (the
in-class initialisers of the absent `rtc_publisher.hpp`): identifiers and payload
kinds 0, no receive context, no depacketizer, tick counter 0, first-audio flag
set. -/
def members_init : rtc_publisher :=
  { roomId_ := ""
    uid_ := ""
    media_type_ := ""
    stream_type_ := "camera"
    rtp_ssrc_ := 0
    rtx_ssrc_ := 0
    clock_rate_ := 0
    payloadtype_ := 0
    rtx_payloadtype_ := 0
    has_rtx_ := false
    mid_extension_id_ := 0
    abs_time_extension_id_ := 0
    rtp_handler_ := none
    pack_handle_ := none
    key_count_ := 0
    first_flv_audio_ := true
    pps_data_ := []
    sps_data_ := [] }

/-- The releases made by the destructor. -/
inductive Release where
  | stop_timer
  | delete_rtp_handler
  | delete_pack_handle
  deriving DecidableEq, Repr

/-- The destructor `rtc_publisher::~rtc_publisher` (lines 89-99), as the releases it
makes in program order (the log is left out). -/
def destructor (st : rtc_publisher) : List Release :=
  [Release.stop_timer] ++
    (match st.rtp_handler_ with
      | some _ => [Release.delete_rtp_handler]
      | none => []) ++
    (match st.pack_handle_ with
      | some _ => [Release.delete_pack_handle]
      | none => [])

/-- The place of a release in the order of lines 92-98: timer, receive context,
depacketizer. -/
def Release.rank_code : Release → Nat
  | .stop_timer => 0
  | .delete_rtp_handler => 1
  | .delete_pack_handle => 2

/-- The place of a release in the order the spec words: timer, depacketizer,
receive context. -/
def Release.rank_spec : Release → Nat
  | .stop_timer => 0
  | .delete_pack_handle => 1
  | .delete_rtp_handler => 2

/-! ## Helpers for statements -/

/-- Lines 310-311 on one audio unit: `set_rtmp_info`, then the FLV tag. -/
def audio_out (E : Decls) (st : rtc_publisher) (pkt : MEDIA_PACKET) : Option MEDIA_PACKET :=
  (set_rtmp_info E st pkt).map fun out => { out with fmt_type_ := .MEDIA_FORMAT_FLV }

/-- The call of `on_rtmp_callback` that hands `pkt` over on behalf of `st`. -/
def rtmp_call (st : rtc_publisher) (pkt : MEDIA_PACKET) : Event :=
  Event.on_rtmp_callback st.roomId_ st.uid_ st.stream_type_ pkt

/-- A descriptor without any source identifier and with clock rate 0. -/
def info_no_ssrc : MEDIA_RTC_INFO :=
  { media_type := "audio"
    rtp_encodings := [{ codec := "opus", payload := 111, clock_rate := 0 }]
    ssrc_groups := []
    ssrc_infos := []
    header_extentions := [] }

/-- A video descriptor with redundancy, no source-identifier group and the two info
entries 1111 and 2222. -/
def info_two_ssrc_infos : MEDIA_RTC_INFO :=
  { media_type := "video"
    rtp_encodings :=
      [{ codec := "H264", payload := 96, clock_rate := 90000 },
       { codec := "rtx", payload := 97, clock_rate := 90000 }]
    ssrc_groups := []
    ssrc_infos := [{ ssrc := 1111 }, { ssrc := 2222 }]
    header_extentions := [] }

/-- The publisher of a construction that ended with one. -/
def construct_result.get_built : construct_result → Option rtc_publisher
  | .built p => some p
  | _ => none

/-- A keyframe unit of six bytes with the given timestamp. -/
def key_unit (ts : Int) : MEDIA_PACKET := video_unit true false ts [0, 0, 0, 1, 101, 9]

/-- A video descriptor with one source-identifier group and clock rate 0. -/
def info_video_clock0 : MEDIA_RTC_INFO :=
  { media_type := "video"
    rtp_encodings := [{ codec := "H264", payload := 96, clock_rate := 0 }]
    ssrc_groups := [{ ssrcs := [1111] }]
    ssrc_infos := []
    header_extentions := [] }

/-! ## Theorems -/

/-! ### Packet demultiplexer -/

theorem set_extension_ids_ssrc (st : rtc_publisher) (pkt : rtp_packet) :
    (set_extension_ids st pkt).ssrc = pkt.ssrc := rfl

theorem set_extension_ids_payload_type (st : rtc_publisher) (pkt : rtp_packet) :
    (set_extension_ids st pkt).payload_type = pkt.payload_type := rfl

theorem is_rtp_iff (st : rtc_publisher) (pkt : rtp_packet) :
    is_rtp st (set_extension_ids st pkt) = true ↔
      pkt.ssrc = st.rtp_ssrc_ ∧ pkt.payload_type = st.payloadtype_ := by
  simp [is_rtp, set_extension_ids]

theorem is_rtx_iff (st : rtc_publisher) (pkt : rtp_packet) :
    is_rtx st (set_extension_ids st pkt) = true ↔
      st.has_rtx_ = true ∧ pkt.ssrc = st.rtx_ssrc_ ∧
        pkt.payload_type = st.rtx_payloadtype_ := by
  simp [is_rtx, set_extension_ids, and_assoc]

theorem filter_recv_new_recv_stream_calls (st : rtc_publisher) (pkt : rtp_packet) :
    (new_recv_stream_calls st pkt).filter is_recv_call = new_recv_stream_calls st pkt := by
  unfold new_recv_stream_calls
  cases st.has_rtx_ <;> simp [is_recv_call]

theorem filter_recv_forward_calls (st : rtc_publisher) (pkt : rtp_packet) :
    (forward_calls st pkt).filter is_recv_call = [] := by
  simp [forward_calls, is_recv_call]

theorem on_handle_rtppacket_rtp_new (st : rtc_publisher) (pkt : rtp_packet)
    (hp : pkt.ssrc = st.rtp_ssrc_ ∧ pkt.payload_type = st.payloadtype_)
    (hh : st.rtp_handler_ = none) :
    on_handle_rtppacket st pkt =
      ({ st with rtp_handler_ := some (new_recv_stream st (set_extension_ids st pkt)) },
        new_recv_stream_calls st (set_extension_ids st pkt) ++
          [Event.on_handle_rtp (set_extension_ids st pkt)] ++
          forward_calls st (set_extension_ids st pkt)) := by
  have hb := (is_rtp_iff st pkt).mpr hp
  simp only [on_handle_rtppacket, hb, hh, if_true]

theorem on_handle_rtppacket_rtp_old (st : rtc_publisher) (pkt : rtp_packet)
    (r : rtp_recv_stream)
    (hp : pkt.ssrc = st.rtp_ssrc_ ∧ pkt.payload_type = st.payloadtype_)
    (hh : st.rtp_handler_ = some r) :
    on_handle_rtppacket st pkt =
      (st, [Event.on_handle_rtp (set_extension_ids st pkt)] ++
        forward_calls st (set_extension_ids st pkt)) := by
  have hb := (is_rtp_iff st pkt).mpr hp
  simp only [on_handle_rtppacket, hb, hh, if_true]

theorem is_rtp_eq_false (st : rtc_publisher) (pkt : rtp_packet)
    (hp : ¬(pkt.ssrc = st.rtp_ssrc_ ∧ pkt.payload_type = st.payloadtype_)) :
    is_rtp st (set_extension_ids st pkt) = false := by
  rw [Bool.eq_false_iff]; exact fun h => hp ((is_rtp_iff st pkt).mp h)

theorem is_rtx_eq_false (st : rtc_publisher) (pkt : rtp_packet)
    (hx : ¬(st.has_rtx_ = true ∧ pkt.ssrc = st.rtx_ssrc_ ∧
      pkt.payload_type = st.rtx_payloadtype_)) :
    is_rtx st (set_extension_ids st pkt) = false := by
  rw [Bool.eq_false_iff]; exact fun h => hx ((is_rtx_iff st pkt).mp h)

theorem on_handle_rtppacket_rtx (st : rtc_publisher) (pkt : rtp_packet)
    (r : rtp_recv_stream)
    (hp : ¬(pkt.ssrc = st.rtp_ssrc_ ∧ pkt.payload_type = st.payloadtype_))
    (hx : st.has_rtx_ = true ∧ pkt.ssrc = st.rtx_ssrc_ ∧
      pkt.payload_type = st.rtx_payloadtype_)
    (hh : st.rtp_handler_ = some r) :
    on_handle_rtppacket st pkt =
      (st, [Event.on_handle_rtx_packet (set_extension_ids st pkt)] ++
        forward_calls st (set_extension_ids st pkt)) := by
  have hb := is_rtp_eq_false st pkt hp
  have hbx := (is_rtx_iff st pkt).mpr hx
  simp only [on_handle_rtppacket, hb, hbx, hh, if_true, Bool.false_eq_true, if_false]

theorem on_handle_rtppacket_rtx_early (st : rtc_publisher) (pkt : rtp_packet)
    (hp : ¬(pkt.ssrc = st.rtp_ssrc_ ∧ pkt.payload_type = st.payloadtype_))
    (hx : st.has_rtx_ = true ∧ pkt.ssrc = st.rtx_ssrc_ ∧
      pkt.payload_type = st.rtx_payloadtype_)
    (hh : st.rtp_handler_ = none) :
    on_handle_rtppacket st pkt =
      (st, [Event.log_warnf] ++ forward_calls st (set_extension_ids st pkt)) := by
  have hb := is_rtp_eq_false st pkt hp
  have hbx := (is_rtx_iff st pkt).mpr hx
  simp only [on_handle_rtppacket, hb, hbx, hh, if_true, Bool.false_eq_true, if_false]

theorem on_handle_rtppacket_unknown (st : rtc_publisher) (pkt : rtp_packet)
    (hp : ¬(pkt.ssrc = st.rtp_ssrc_ ∧ pkt.payload_type = st.payloadtype_))
    (hx : ¬(st.has_rtx_ = true ∧ pkt.ssrc = st.rtx_ssrc_ ∧
      pkt.payload_type = st.rtx_payloadtype_)) :
    on_handle_rtppacket st pkt = (st, [Event.log_errorf]) := by
  have hb := is_rtp_eq_false st pkt hp
  have hbx := is_rtx_eq_false st pkt hx
  simp only [on_handle_rtppacket, hb, hbx, Bool.false_eq_true, if_false]

/-- C1: classification by `on_handle_rtppacket`. The calls made on the receive
context are: for a packet with the primary pair, the construction of the context
when it is absent, followed by exactly one `on_handle_rtp` of the packet (and the
context exists afterwards); otherwise, for a packet with the redundancy pair on a
track that declares redundancy and has a context, exactly one
`on_handle_rtx_packet`; in every other case none. -/
theorem on_handle_rtppacket_classifies (st : rtc_publisher) (pkt : rtp_packet) :
    ((on_handle_rtppacket st pkt).2.filter is_recv_call =
      if pkt.ssrc = st.rtp_ssrc_ ∧ pkt.payload_type = st.payloadtype_ then
        (if st.rtp_handler_ = none then new_recv_stream_calls st (set_extension_ids st pkt)
          else []) ++ [Event.on_handle_rtp (set_extension_ids st pkt)]
      else if (st.has_rtx_ = true ∧ pkt.ssrc = st.rtx_ssrc_ ∧
          pkt.payload_type = st.rtx_payloadtype_) ∧ st.rtp_handler_ ≠ none then
        [Event.on_handle_rtx_packet (set_extension_ids st pkt)]
      else []) ∧
    (pkt.ssrc = st.rtp_ssrc_ ∧ pkt.payload_type = st.payloadtype_ →
      (on_handle_rtppacket st pkt).1.rtp_handler_ ≠ none) := by
  by_cases hp : pkt.ssrc = st.rtp_ssrc_ ∧ pkt.payload_type = st.payloadtype_
  · cases hh : st.rtp_handler_ with
    | none =>
      rw [on_handle_rtppacket_rtp_new st pkt hp hh, if_pos hp]
      simp [List.filter_append, filter_recv_new_recv_stream_calls,
        filter_recv_forward_calls, is_recv_call]
    | some r =>
      rw [on_handle_rtppacket_rtp_old st pkt r hp hh, if_pos hp]
      simp [hh, List.filter_append, filter_recv_forward_calls, is_recv_call]
  · refine ⟨?_, fun h => absurd h hp⟩
    rw [if_neg hp]
    by_cases hx : st.has_rtx_ = true ∧ pkt.ssrc = st.rtx_ssrc_ ∧
        pkt.payload_type = st.rtx_payloadtype_
    · cases hh : st.rtp_handler_ with
      | none =>
        rw [on_handle_rtppacket_rtx_early st pkt hp hx hh, if_neg (fun h => h.2 rfl)]
        simp [List.filter_append, filter_recv_forward_calls, is_recv_call]
      | some r =>
        rw [on_handle_rtppacket_rtx st pkt r hp hx hh, if_pos ⟨hx, by simp⟩]
        simp [List.filter_append, filter_recv_forward_calls, is_recv_call]
    · rw [on_handle_rtppacket_unknown st pkt hp hx, if_neg (fun h => hx h.1)]
      simp [is_recv_call]

/-- C2: a packet that carries neither the primary pair nor (with redundancy
declared) the redundancy pair is dropped by `on_handle_rtppacket`: the call
returns with the publisher unchanged (so no receive context is created), and no
call reaches the receive context, the jitter buffer or the room fan-out; the only
effect is the error log. -/
theorem on_handle_rtppacket_drops_unknown (st : rtc_publisher) (pkt : rtp_packet)
    (hp : ¬(pkt.ssrc = st.rtp_ssrc_ ∧ pkt.payload_type = st.payloadtype_))
    (hx : ¬(st.has_rtx_ = true ∧ pkt.ssrc = st.rtx_ssrc_ ∧
      pkt.payload_type = st.rtx_payloadtype_)) :
    (on_handle_rtppacket st pkt).1 = st ∧
    (on_handle_rtppacket st pkt).2 = [Event.log_errorf] ∧
    (on_handle_rtppacket st pkt).2.filter is_recv_call = [] ∧
    (on_handle_rtppacket st pkt).2.filter is_jb_call = [] ∧
    (on_handle_rtppacket st pkt).2.filter is_room_rtp_call = [] := by
  rw [on_handle_rtppacket_unknown st pkt hp hx]
  simp [is_recv_call, is_jb_call, is_room_rtp_call]

theorem on_handle_rtppacket_drops_unknown_witness :
    (on_handle_rtppacket video_pub (mk_pkt 5555 96)).1 = video_pub ∧
    (on_handle_rtppacket video_pub (mk_pkt 5555 96)).2 = [Event.log_errorf] ∧
    (on_handle_rtppacket video_pub (mk_pkt 5555 96)).2.filter is_recv_call = [] ∧
    (on_handle_rtppacket video_pub (mk_pkt 5555 96)).2.filter is_jb_call = [] ∧
    (on_handle_rtppacket video_pub (mk_pkt 5555 96)).2.filter is_room_rtp_call = [] :=
  on_handle_rtppacket_drops_unknown video_pub (mk_pkt 5555 96) (by decide) (by decide)

/-- C3 (the code at the failing input): on a publisher with redundancy declared
and no receive context, a packet with the redundancy pair creates no context and
reaches no receive context, but after the warning it is still handed to the
jitter buffer (`input_rtp_packet`) and to the room fan-out
(`on_rtppacket_publisher2room`). -/
theorem on_handle_rtppacket_early_rtx_is_forwarded :
    (on_handle_rtppacket video_pub (mk_pkt 2222 97)).1 = video_pub ∧
    (on_handle_rtppacket video_pub (mk_pkt 2222 97)).2.filter is_recv_call = [] ∧
    (on_handle_rtppacket video_pub (mk_pkt 2222 97)).2 =
      [Event.log_warnf,
       Event.input_rtp_packet "room" "user" "video" "camera" 90000
         { ssrc := 2222, payload_type := 97, mid_extension_id := 1,
           abs_time_extension_id := 3 },
       Event.on_rtppacket_publisher2room
         { ssrc := 2222, payload_type := 97, mid_extension_id := 1,
           abs_time_extension_id := 3 }] := by
  decide

/-! ### Frame properties of the operations -/

theorem countP_recv_new_forward_calls (st : rtc_publisher) (pkt : rtp_packet) :
    (forward_calls st pkt).countP is_recv_new = 0 := by
  simp [forward_calls, is_recv_new]

theorem countP_recv_new_new_recv_stream_calls (st : rtc_publisher) (pkt : rtp_packet) :
    (new_recv_stream_calls st pkt).countP is_recv_new = 1 := by
  unfold new_recv_stream_calls
  cases st.has_rtx_ <;> simp [is_recv_new]

theorem countP_recv_new_request_keyframe (st : rtc_publisher) (m : Nat) :
    (request_keyframe st m).countP is_recv_new = 0 := by
  unfold request_keyframe
  split <;> simp [is_recv_new]

/-- What `on_handle_rtppacket` does to the receive context: it is created exactly
when it was absent and the packet carries the primary pair. -/
theorem on_handle_rtppacket_handler (st : rtc_publisher) (pkt : rtp_packet) :
    (on_handle_rtppacket st pkt).1.rtp_ssrc_ = st.rtp_ssrc_ ∧
    (on_handle_rtppacket st pkt).1.payloadtype_ = st.payloadtype_ ∧
    (on_handle_rtppacket st pkt).1.key_count_ = st.key_count_ ∧
    (on_handle_rtppacket st pkt).1.media_type_ = st.media_type_ ∧
    (if st.rtp_handler_ = none ∧ is_rtp st pkt = true then
      (on_handle_rtppacket st pkt).1.rtp_handler_ = some (new_recv_stream st pkt) ∧
        (on_handle_rtppacket st pkt).2.countP is_recv_new = 1
    else
      (on_handle_rtppacket st pkt).1.rtp_handler_ = st.rtp_handler_ ∧
        (on_handle_rtppacket st pkt).2.countP is_recv_new = 0) := by
  have hiff : is_rtp st pkt = true ↔
      pkt.ssrc = st.rtp_ssrc_ ∧ pkt.payload_type = st.payloadtype_ := is_rtp_iff st pkt
  by_cases hp : pkt.ssrc = st.rtp_ssrc_ ∧ pkt.payload_type = st.payloadtype_
  · cases hh : st.rtp_handler_ with
    | none =>
      rw [on_handle_rtppacket_rtp_new st pkt hp hh, if_pos ⟨rfl, hiff.mpr hp⟩]
      refine ⟨rfl, rfl, rfl, rfl, rfl, ?_⟩
      simp [List.countP_append, countP_recv_new_forward_calls,
        countP_recv_new_new_recv_stream_calls, is_recv_new]
    | some r =>
      rw [on_handle_rtppacket_rtp_old st pkt r hp hh, if_neg (by simp)]
      refine ⟨rfl, rfl, rfl, rfl, hh, ?_⟩
      simp [List.countP_append, countP_recv_new_forward_calls, is_recv_new]
  · have hn : ¬(st.rtp_handler_ = none ∧ is_rtp st pkt = true) :=
      fun h => hp (hiff.mp h.2)
    rw [if_neg hn]
    by_cases hx : st.has_rtx_ = true ∧ pkt.ssrc = st.rtx_ssrc_ ∧
        pkt.payload_type = st.rtx_payloadtype_
    · cases hh : st.rtp_handler_ with
      | none =>
        rw [on_handle_rtppacket_rtx_early st pkt hp hx hh]
        refine ⟨rfl, rfl, rfl, rfl, hh, ?_⟩
        simp [List.countP_append, countP_recv_new_forward_calls, is_recv_new]
      | some r =>
        rw [on_handle_rtppacket_rtx st pkt r hp hx hh]
        refine ⟨rfl, rfl, rfl, rfl, hh, ?_⟩
        simp [List.countP_append, countP_recv_new_forward_calls, is_recv_new]
    · rw [on_handle_rtppacket_unknown st pkt hp hx]
      exact ⟨rfl, rfl, rfl, rfl, rfl, by simp [is_recv_new]⟩

theorem video_emit_eq (E : Decls) (st st' : rtc_publisher) (pkt : MEDIA_PACKET)
    (before evs : List Event) (h : video_emit E st pkt before = some (st', evs)) :
    st' = st ∧ ∃ buf out, write_nalu_len pkt.buffer = some buf ∧
      set_rtmp_info E st { pkt with buffer := buf } = some out ∧
      evs = before ++ [Event.on_rtmp_callback st.roomId_ st.uid_ st.stream_type_ out] := by
  unfold video_emit at h
  cases hb : write_nalu_len pkt.buffer with
  | none => simp [hb] at h
  | some buf =>
    cases ho : set_rtmp_info E st { pkt with buffer := buf } with
    | none => simp [hb, ho] at h
    | some out =>
      simp only [hb, ho, Option.some.injEq, Prod.mk.injEq] at h
      exact ⟨h.1.symm, buf, out, rfl, ho, h.2.symm⟩

theorem audio_emit_eq (E : Decls) (st st' : rtc_publisher) (pkt : MEDIA_PACKET)
    (before evs : List Event) (h : audio_emit E st pkt before = some (st', evs)) :
    st' = st ∧ ∃ out, set_rtmp_info E st pkt = some out ∧
      evs = before ++ [Event.on_rtmp_callback st.roomId_ st.uid_ st.stream_type_
        { out with fmt_type_ := .MEDIA_FORMAT_FLV }] := by
  unfold audio_emit at h
  cases ho : set_rtmp_info E st pkt with
  | none => simp [ho] at h
  | some out =>
    simp only [ho, Option.some.injEq, Prod.mk.injEq] at h
    exact ⟨h.1.symm, out, rfl, h.2.symm⟩

theorem video_seq_hdr_eq (st st' : rtc_publisher) (pkt : MEDIA_PACKET)
    (evs : List Event) (h : video_seq_hdr st pkt = some (st', evs)) :
    (st' = { st with sps_data_ := pkt.buffer.drop 4 } ∨
      st' = { st with pps_data_ := pkt.buffer.drop 4 } ∨ st' = st) ∧
    (evs = [] ∨ evs = [Event.log_errorf]) := by
  unfold video_seq_hdr at h
  cases hb : pkt.buffer[4]? with
  | none => simp [hb] at h
  | some b =>
    simp only [hb] at h
    split at h
    · simp only [Option.some.injEq, Prod.mk.injEq] at h
      exact ⟨Or.inl h.1.symm, Or.inl h.2.symm⟩
    · split at h
      · simp only [Option.some.injEq, Prod.mk.injEq] at h
        exact ⟨Or.inr (Or.inl h.1.symm), Or.inl h.2.symm⟩
      · simp only [Option.some.injEq, Prod.mk.injEq] at h
        exact ⟨Or.inr (Or.inr h.1.symm), Or.inr h.2.symm⟩

/-- `media_packet_output` touches only the parameter-set cache and the
first-audio flag, and its calls are container outputs and error logs. -/
theorem media_packet_output_frame (E : Decls) (st st' : rtc_publisher)
    (pkt : MEDIA_PACKET) (evs : List Event)
    (h : media_packet_output E st pkt = some (st', evs)) :
    st'.rtp_handler_ = st.rtp_handler_ ∧ st'.rtp_ssrc_ = st.rtp_ssrc_ ∧
    st'.payloadtype_ = st.payloadtype_ ∧ st'.key_count_ = st.key_count_ ∧
    st'.media_type_ = st.media_type_ ∧
    evs.countP is_recv_new = 0 ∧ sent_rtcp evs = [] := by
  unfold media_packet_output at h
  split at h
  · split at h
    · simp only at h
      split at h
      · simp at h
      · cases hs : make_seq_pkt E st pkt (E.get_video_extradata st.pps_data_ st.sps_data_) with
        | none => simp [hs] at h
        | some seq_pkt =>
          simp only [hs] at h
          obtain ⟨rfl, buf, out, -, -, rfl⟩ := video_emit_eq _ _ _ _ _ _ h
          simp [is_recv_new, sent_rtcp]
    · split at h
      · obtain ⟨hst, hev⟩ := video_seq_hdr_eq _ _ _ _ h
        rcases hst with rfl | rfl | rfl <;> rcases hev with rfl | rfl <;>
          simp [is_recv_new, sent_rtcp]
      · obtain ⟨rfl, buf, out, -, -, rfl⟩ := video_emit_eq _ _ _ _ _ _ h
        simp [is_recv_new, sent_rtcp]
  · split at h
    · cases hs : make_seq_pkt E st pkt opus_seq_data with
      | none => simp [hs] at h
      | some seq_pkt =>
        simp only [hs] at h
        obtain ⟨rfl, out, -, rfl⟩ := audio_emit_eq _ _ _ _ _ _ h
        simp [is_recv_new, sent_rtcp]
    · obtain ⟨rfl, out, -, rfl⟩ := audio_emit_eq _ _ _ _ _ _ h
      simp [is_recv_new, sent_rtcp]

/-- Every operation leaves the identifiers and the media kind alone; the receive
context is created exactly by a primary packet handled while it is absent, and is
otherwise left as it is. -/
theorem step_handler (E : Decls) (st st' : rtc_publisher) (op : Op) (evs : List Event)
    (h : step E st op = some (st', evs)) :
    st'.rtp_ssrc_ = st.rtp_ssrc_ ∧ st'.payloadtype_ = st.payloadtype_ ∧
    st'.media_type_ = st.media_type_ ∧
    (if st.rtp_handler_ = none ∧ op.is_rtp st = true then
      st'.rtp_handler_ ≠ none ∧ evs.countP is_recv_new = 1
    else
      st'.rtp_handler_ = st.rtp_handler_ ∧ evs.countP is_recv_new = 0) := by
  cases op with
  | rtppacket pkt =>
    simp only [step, Option.some.injEq] at h
    have hk := on_handle_rtppacket_handler st pkt
    rw [h] at hk
    refine ⟨hk.1, hk.2.1, hk.2.2.2.1, ?_⟩
    have h5 := hk.2.2.2.2
    simp only [Op.is_rtp]
    split
    · rename_i hc
      rw [if_pos hc] at h5
      exact ⟨by rw [h5.1]; simp, h5.2⟩
    · rename_i hc
      rw [if_neg hc] at h5
      exact h5
  | rtcp_sr sr_pkt =>
    simp only [step, on_handle_rtcp_sr] at h
    cases hh : st.rtp_handler_ with
    | none => simp [hh] at h
    | some r =>
      simp only [hh, Option.some.injEq, Prod.mk.injEq] at h
      obtain ⟨rfl, rfl⟩ := h
      simp [Op.is_rtp, hh, is_recv_new]
  | timer =>
    simp only [step, on_timer, Option.some.injEq] at h
    split at h <;> cases hh : st.rtp_handler_ <;>
      simp only [hh, Prod.mk.injEq] at h <;> obtain ⟨rfl, rfl⟩ := h <;>
      simp [Op.is_rtp, hh, is_recv_new, List.countP_append,
        countP_recv_new_request_keyframe]
  | jb_reset pkt_ptr =>
    simp only [step, rtp_packet_reset, Option.some.injEq] at h
    cases pkt_ptr with
    | none =>
      simp only [Prod.mk.injEq] at h
      obtain ⟨rfl, rfl⟩ := h
      simp [Op.is_rtp]
    | some info =>
      simp only at h
      split at h <;> simp only [Prod.mk.injEq] at h <;> obtain ⟨rfl, rfl⟩ := h <;>
        simp [Op.is_rtp, is_recv_new, countP_recv_new_request_keyframe]
  | jb_output pkt_ptr =>
    simp only [step, rtp_packet_output, Option.some.injEq] at h
    cases hp : st.pack_handle_ <;> simp only [hp, Prod.mk.injEq] at h <;>
      obtain ⟨rfl, rfl⟩ := h <;> simp [Op.is_rtp, is_recv_new]
  | pack_reset pkt_ptr =>
    simp only [step, pack_handle_reset, Option.some.injEq] at h
    cases pkt_ptr with
    | none =>
      simp only [Prod.mk.injEq] at h
      obtain ⟨rfl, rfl⟩ := h
      simp [Op.is_rtp]
    | some info =>
      simp only [Prod.mk.injEq] at h
      obtain ⟨rfl, rfl⟩ := h
      simp [Op.is_rtp, is_recv_new, countP_recv_new_request_keyframe]
  | media_output pkt =>
    have hk := media_packet_output_frame E st st' pkt evs h
    refine ⟨hk.2.1, hk.2.2.1, hk.2.2.2.2.1, ?_⟩
    simp only [Op.is_rtp, Bool.false_eq_true, and_false, if_false]
    exact ⟨hk.1, hk.2.2.2.2.2.1⟩

/-! ### The receive context over operation sequences -/

theorem Op.is_rtp_congr (st st1 : rtc_publisher) (op : Op)
    (h1 : st1.rtp_ssrc_ = st.rtp_ssrc_) (h2 : st1.payloadtype_ = st.payloadtype_) :
    op.is_rtp st1 = op.is_rtp st := by
  cases op <;> simp [Op.is_rtp, RtcPublisher.is_rtp, h1, h2]

theorem run_cons_eq (E : Decls) (st st' : rtc_publisher) (op : Op) (ops : List Op)
    (evs : List Event) (h : run E st (op :: ops) = some (st', evs)) :
    ∃ st1 evs1 evs2, step E st op = some (st1, evs1) ∧
      run E st1 ops = some (st', evs2) ∧ evs = evs1 ++ evs2 := by
  simp only [run] at h
  cases hs : step E st op with
  | none => simp [hs] at h
  | some r =>
    obtain ⟨st1, evs1⟩ := r
    simp only [hs] at h
    cases hr : run E st1 ops with
    | none => simp [hr] at h
    | some r2 =>
      obtain ⟨st2, evs2⟩ := r2
      simp only [hr, Option.some.injEq, Prod.mk.injEq] at h
      exact ⟨st1, evs1, evs2, rfl, by rw [hr, h.1], h.2.symm⟩

/-- The receive context along a run: the identifiers are kept; an existing context
is kept and never built again; an absent one stays absent exactly as long as no
primary packet is handled, and is built once. -/
theorem run_handler (E : Decls) (ops : List Op) :
    ∀ (st st' : rtc_publisher) (evs : List Event), run E st ops = some (st', evs) →
      st'.rtp_ssrc_ = st.rtp_ssrc_ ∧ st'.payloadtype_ = st.payloadtype_ ∧
      (st.rtp_handler_ ≠ none →
        st'.rtp_handler_ = st.rtp_handler_ ∧ evs.countP is_recv_new = 0) ∧
      (st.rtp_handler_ = none →
        (st'.rtp_handler_ = none ↔ ∀ op ∈ ops, op.is_rtp st = false) ∧
        evs.countP is_recv_new = if st'.rtp_handler_ = none then 0 else 1) := by
  induction ops with
  | nil =>
    intro st st' evs h
    simp only [run, Option.some.injEq, Prod.mk.injEq] at h
    obtain ⟨rfl, rfl⟩ := h
    refine ⟨rfl, rfl, fun _ => ⟨rfl, rfl⟩, fun h0 => ?_⟩
    simp [h0]
  | cons op ops ih =>
    intro st st' evs h
    obtain ⟨st1, evs1, evs2, hs, hr, rfl⟩ := run_cons_eq E st st' op ops evs h
    obtain ⟨a1, a2, -, a4⟩ := step_handler E st st1 op evs1 hs
    obtain ⟨b1, b2, b3, b4⟩ := ih st1 st' evs2 hr
    have hcongr : ∀ o : Op, o.is_rtp st1 = o.is_rtp st :=
      fun o => Op.is_rtp_congr st st1 o a1 a2
    refine ⟨b1.trans a1, b2.trans a2, fun hne => ?_, fun h0 => ?_⟩
    · rw [if_neg (fun hc => hne hc.1)] at a4
      have hne1 : st1.rtp_handler_ ≠ none := by rw [a4.1]; exact hne
      obtain ⟨c1, c2⟩ := b3 hne1
      exact ⟨c1.trans a4.1, by rw [List.countP_append, a4.2, c2]⟩
    · by_cases hop : op.is_rtp st = true
      · rw [if_pos ⟨h0, hop⟩] at a4
        obtain ⟨c1, c2⟩ := b3 a4.1
        have hne' : st'.rtp_handler_ ≠ none := by rw [c1]; exact a4.1
        refine ⟨⟨fun hc => absurd hc hne', fun hall => ?_⟩, ?_⟩
        · have := hall op (List.mem_cons_self _ _)
          rw [hop] at this
          exact absurd this (by simp)
        · rw [if_neg hne', List.countP_append, a4.2, c2]
      · rw [if_neg (fun hc => hop hc.2)] at a4
        have h01 : st1.rtp_handler_ = none := by rw [a4.1]; exact h0
        obtain ⟨c1, c2⟩ := b4 h01
        refine ⟨?_, by rw [List.countP_append, a4.2, c2, Nat.zero_add]⟩
        rw [c1]
        constructor
        · intro hall o ho
          rcases List.mem_cons.mp ho with rfl | ho
          · simpa using hop
          · rw [← hcongr]; exact hall o ho
        · intro hall o ho
          rw [hcongr]; exact hall o (List.mem_cons_of_mem _ ho)

/-- C4: invariant of the receive context over every finite sequence of operations
(packets, sender reports, ticks, loss signals, jitter-buffer and media outputs)
of a publisher that starts without a receive context. After the sequence the
context is absent if and only if no packet with the primary pair was handled;
the number of contexts ever built is 0 while it is absent and 1 once it exists;
and once it exists, every further sequence of operations leaves that same
context in place and builds no other. -/
theorem recv_context_invariant (E : Decls) (st st' : rtc_publisher) (ops : List Op)
    (evs : List Event) (h0 : st.rtp_handler_ = none)
    (hrun : run E st ops = some (st', evs)) :
    (st'.rtp_handler_ = none ↔ ∀ op ∈ ops, op.is_rtp st = false) ∧
    (evs.countP is_recv_new = if st'.rtp_handler_ = none then 0 else 1) ∧
    (st'.rtp_handler_ ≠ none → ∀ (more : List Op) (st2 : rtc_publisher)
      (evs2 : List Event), run E st' more = some (st2, evs2) →
        st2.rtp_handler_ = st'.rtp_handler_ ∧ evs2.countP is_recv_new = 0) := by
  obtain ⟨-, -, -, b4⟩ := run_handler E ops st st' evs hrun
  refine ⟨(b4 h0).1, (b4 h0).2, fun hne more st2 evs2 h2 => ?_⟩
  exact (run_handler E more st' st2 evs2 h2).2.2.1 hne

theorem recv_context_invariant_witness :
    video_pub.rtp_handler_ = none ∧
    run decls32 video_pub sample_ops = some (sample_result.1, sample_result.2) ∧
    sample_result.1.rtp_handler_ ≠ none ∧
    (sample_result.1.rtp_handler_ = none ↔
      ∀ op ∈ sample_ops, op.is_rtp video_pub = false) ∧
    (sample_result.2.countP is_recv_new =
      if sample_result.1.rtp_handler_ = none then 0 else 1) ∧
    (sample_result.1.rtp_handler_ ≠ none → ∀ (more : List Op) (st2 : rtc_publisher)
      (evs2 : List Event), run decls32 sample_result.1 more = some (st2, evs2) →
        st2.rtp_handler_ = sample_result.1.rtp_handler_ ∧
          evs2.countP is_recv_new = 0) :=
  ⟨by decide, by decide, by decide,
    recv_context_invariant decls32 video_pub sample_result.1 sample_ops sample_result.2
      (by decide) (by decide)⟩

/-! ### Output tagger -/

theorem rescale_of_pos (clock_rate v : Int) (h : 0 < clock_rate) :
    rescale clock_rate v = some (Int.tdiv (wrap_int64 (v * 1000)) clock_rate) := by
  unfold rescale
  rw [if_neg (by omega), if_neg (fun hc => by omega)]

theorem set_rtmp_info_of_pos (E : Decls) (st : rtc_publisher) (pkt : MEDIA_PACKET)
    (h : 0 < st.clock_rate_) :
    set_rtmp_info E st pkt = some (add_flv_media_header E (with_rtmp_info st pkt
      (Int.tdiv (wrap_int64 (pkt.dts_ * 1000)) st.clock_rate_)
      (Int.tdiv (wrap_int64 (pkt.pts_ * 1000)) st.clock_rate_))) := by
  unfold set_rtmp_info
  rw [rescale_of_pos _ _ h, rescale_of_pos _ _ h]

theorem write_nalu_len_of_le (buffer : List Nat) (h : 4 ≤ buffer.length) :
    write_nalu_len buffer =
      some (write_4bytes (nalu_len buffer.length) ++ buffer.drop 4) := by
  unfold write_nalu_len
  rw [if_neg (by omega)]

/-! ### Keyframe-recovery scheduler -/

theorem sent_rtcp_append (xs ys : List Event) :
    sent_rtcp (xs ++ ys) = sent_rtcp xs ++ sent_rtcp ys := by
  induction xs with
  | nil => rfl
  | cons x xs ih => cases x <;> simp [sent_rtcp, ih]

theorem sent_rtcp_request_keyframe (st : rtc_publisher) (m : Nat) :
    sent_rtcp (request_keyframe st m) =
      if m = st.rtp_ssrc_ then [{ sender_ssrc := 1, media_ssrc := m }] else [] := by
  unfold request_keyframe
  by_cases h : m = st.rtp_ssrc_
  · rw [if_neg (fun hc => hc h.symm), if_pos h]; rfl
  · rw [if_pos (fun hc => h hc.symm), if_neg h]; rfl

/-- What one tick sends: a request addressed to the primary identifier exactly
when the incremented counter is a multiple of 6 and the kind is video. -/
theorem sent_rtcp_on_timer (E : Decls) (st : rtc_publisher) :
    sent_rtcp (on_timer E st).2 =
      if (st.key_count_ + 1) % 2 ^ E.key_count_bits % 6 = 0 ∧ st.media_type_ = "video" then
        [{ sender_ssrc := 1, media_ssrc := st.rtp_ssrc_ }]
      else [] := by
  unfold on_timer
  simp only
  split <;> cases st.rtp_handler_ <;>
    simp [sent_rtcp_append, sent_rtcp_request_keyframe, sent_rtcp]

theorem step_key_count (E : Decls) (st st' : rtc_publisher) (op : Op) (evs : List Event)
    (h : step E st op = some (st', evs)) :
    st'.key_count_ =
      if op.is_timer = true then (st.key_count_ + 1) % 2 ^ E.key_count_bits
      else st.key_count_ := by
  cases op with
  | rtppacket pkt =>
    simp only [step, Option.some.injEq] at h
    have hk := (on_handle_rtppacket_handler st pkt).2.2.1
    rw [h] at hk
    simpa [Op.is_timer] using hk
  | rtcp_sr sr_pkt =>
    simp only [step, on_handle_rtcp_sr] at h
    cases hh : st.rtp_handler_ with
    | none => simp [hh] at h
    | some r =>
      simp only [hh, Option.some.injEq, Prod.mk.injEq] at h
      obtain ⟨rfl, rfl⟩ := h
      simp [Op.is_timer]
  | timer =>
    simp only [step, on_timer, Option.some.injEq] at h
    split at h <;> simp only [Prod.mk.injEq] at h <;> obtain ⟨rfl, -⟩ := h <;>
      simp [Op.is_timer]
  | jb_reset pkt_ptr =>
    simp only [step, rtp_packet_reset, Option.some.injEq] at h
    cases pkt_ptr with
    | none =>
      simp only [Prod.mk.injEq] at h
      obtain ⟨rfl, -⟩ := h
      simp [Op.is_timer]
    | some info =>
      simp only at h
      split at h <;> simp only [Prod.mk.injEq] at h <;> obtain ⟨rfl, -⟩ := h <;>
        simp [Op.is_timer]
  | jb_output pkt_ptr =>
    simp only [step, rtp_packet_output, Option.some.injEq] at h
    cases hp : st.pack_handle_ <;> simp only [hp, Prod.mk.injEq] at h <;>
      obtain ⟨rfl, -⟩ := h <;> simp [Op.is_timer]
  | pack_reset pkt_ptr =>
    simp only [step, pack_handle_reset, Option.some.injEq] at h
    cases pkt_ptr <;> simp only [Prod.mk.injEq] at h <;> obtain ⟨rfl, -⟩ := h <;>
      simp [Op.is_timer]
  | media_output pkt =>
    have hk := media_packet_output_frame E st st' pkt evs h
    simpa [Op.is_timer] using hk.2.2.2.1

/-- Along a run the media kind and the primary identifier are kept and the counter
advances, modulo its range, by the number of ticks. -/
theorem run_key_count (E : Decls) (ops : List Op) :
    ∀ (st st' : rtc_publisher) (evs : List Event), run E st ops = some (st', evs) →
      st'.media_type_ = st.media_type_ ∧ st'.rtp_ssrc_ = st.rtp_ssrc_ ∧
      st'.key_count_ % 2 ^ E.key_count_bits =
        (st.key_count_ + ops.countP Op.is_timer) % 2 ^ E.key_count_bits := by
  induction ops with
  | nil =>
    intro st st' evs h
    simp only [run, Option.some.injEq, Prod.mk.injEq] at h
    obtain ⟨rfl, rfl⟩ := h
    simp
  | cons op ops ih =>
    intro st st' evs h
    obtain ⟨st1, evs1, evs2, hs, hr, rfl⟩ := run_cons_eq E st st' op ops evs h
    obtain ⟨a1, -, a3, -⟩ := step_handler E st st1 op evs1 hs
    have a5 := step_key_count E st st1 op evs1 hs
    obtain ⟨b1, b2, b3⟩ := ih st1 st' evs2 hr
    refine ⟨b1.trans a3, b2.trans a1, ?_⟩
    rw [b3, a5]
    by_cases ht : op.is_timer = true
    · rw [if_pos ht, List.countP_cons_of_pos _ _ ht, Nat.mod_add_mod]
      congr 1
      omega
    · rw [if_neg ht, List.countP_cons_of_neg _ _ ht]

theorem run_ticks_defined (E : Decls) (n : Nat) :
    ∀ st : rtc_publisher, ∃ st' evs, run E st (ticks n) = some (st', evs) := by
  induction n with
  | zero => intro st; exact ⟨st, [], rfl⟩
  | succ n ih =>
    intro st
    obtain ⟨st', evs, h⟩ := ih (on_timer E st).1
    refine ⟨st', (on_timer E st).2 ++ evs, ?_⟩
    show run E st (Op.timer :: ticks n) = _
    simp only [run, step, h]

theorem countP_is_timer_ticks (n : Nat) : (ticks n).countP Op.is_timer = n := by
  induction n with
  | zero => rfl
  | succ n ih =>
    show (Op.timer :: ticks n).countP Op.is_timer = n + 1
    rw [List.countP_cons_of_pos _ _ (by rfl), ih]

/-- The tick that follows `2 ^ w + 1` ticks of a video publisher with a `w`-bit
counter (`w ≥ 2`) sends nothing: the counter has wrapped to 2. -/
theorem tick_after_wrap (w : Nat) (hw : 2 ≤ w) (st0 : rtc_publisher)
    (h0 : st0.key_count_ = 0) :
    ∃ st evs, run (decls_bits w) st0 (ticks (2 ^ w + 1)) = some (st, evs) ∧
      sent_rtcp (on_timer (decls_bits w) st).2 = [] := by
  obtain ⟨st, evs, h⟩ := run_ticks_defined (decls_bits w) (2 ^ w + 1) st0
  refine ⟨st, evs, h, ?_⟩
  obtain ⟨-, -, hk⟩ := run_key_count (decls_bits w) _ st0 st evs h
  rw [countP_is_timer_ticks, h0] at hk
  have hbits : (decls_bits w).key_count_bits = w := rfl
  rw [hbits] at hk
  have h4 : 4 ≤ 2 ^ w := by
    calc 4 = 2 ^ 2 := by norm_num
      _ ≤ 2 ^ w := Nat.pow_le_pow_right (by norm_num) hw
  have h1 : (0 + (2 ^ w + 1)) % 2 ^ w = 1 := by
    rw [Nat.zero_add, Nat.add_mod_left]
    exact Nat.mod_eq_of_lt (by omega)
  rw [h1] at hk
  have h2 : (st.key_count_ + 1) % 2 ^ w = 2 := by
    rw [Nat.add_mod, hk]
    have : 1 % 2 ^ w = 1 := Nat.mod_eq_of_lt (by omega)
    rw [this]
    exact Nat.mod_eq_of_lt (by omega)
  rw [sent_rtcp_on_timer, hbits, h2]
  simp

/-- C6 (as amended): let a publisher start with its tick counter at 0 and go
through any sequence of operations that contains `n - 1` ticks; consider the next
call of `on_timer`, the `n`-th. If the media kind is not video it sends no
recovery request, whatever `n` is. If the kind is video and `n` is below the
range `2 ^ key_count_bits` of the counter, it sends a recovery request if and
only if 6 divides `n`, and then exactly one, from sender 1 and addressed to the
primary source identifier. -/
theorem on_timer_nth (E : Decls) (st0 st : rtc_publisher) (ops : List Op)
    (evs : List Event) (h0 : st0.key_count_ = 0)
    (hrun : run E st0 ops = some (st, evs)) :
    (st0.media_type_ ≠ "video" → sent_rtcp (on_timer E st).2 = []) ∧
    (st0.media_type_ = "video" →
      ops.countP Op.is_timer + 1 < 2 ^ E.key_count_bits →
      sent_rtcp (on_timer E st).2 =
        if 6 ∣ ops.countP Op.is_timer + 1 then
          [{ sender_ssrc := 1, media_ssrc := st0.rtp_ssrc_ }]
        else []) := by
  obtain ⟨hm, hs, hk⟩ := run_key_count E ops st0 st evs hrun
  rw [h0, Nat.zero_add] at hk
  constructor
  · intro hne
    rw [sent_rtcp_on_timer, if_neg]
    rw [hm]
    exact fun hc => hne hc.2
  · intro hv hlt
    have hcount : (st.key_count_ + 1) % 2 ^ E.key_count_bits =
        ops.countP Op.is_timer + 1 := by
      rw [Nat.add_mod, hk, ← Nat.add_mod]
      exact Nat.mod_eq_of_lt hlt
    rw [sent_rtcp_on_timer, hcount, hm, hs]
    by_cases hd : 6 ∣ ops.countP Op.is_timer + 1
    · rw [if_pos ⟨Nat.mod_eq_zero_of_dvd hd, hv⟩, if_pos hd]
    · rw [if_neg (fun hc => hd (Nat.dvd_of_mod_eq_zero hc.1)), if_neg hd]

theorem on_timer_nth_witness :
    video_pub.key_count_ = 0 ∧
    run decls32 video_pub (ticks 5) =
      some ((run decls32 video_pub (ticks 5)).getD (video_pub, [])) ∧
    (ticks 5).countP Op.is_timer + 1 = 6 ∧
    sent_rtcp (on_timer decls32 ((run decls32 video_pub (ticks 5)).getD (video_pub, [])).1).2 =
      [{ sender_ssrc := 1, media_ssrc := 1111 }] ∧
    (video_pub.media_type_ ≠ "video" →
      sent_rtcp (on_timer decls32
        ((run decls32 video_pub (ticks 5)).getD (video_pub, [])).1).2 = []) ∧
    (video_pub.media_type_ = "video" →
      (ticks 5).countP Op.is_timer + 1 < 2 ^ decls32.key_count_bits →
      sent_rtcp (on_timer decls32
        ((run decls32 video_pub (ticks 5)).getD (video_pub, [])).1).2 =
        if 6 ∣ (ticks 5).countP Op.is_timer + 1 then
          [{ sender_ssrc := 1, media_ssrc := video_pub.rtp_ssrc_ }]
        else []) :=
  ⟨by decide, by decide, by decide, by decide,
    on_timer_nth decls32 video_pub
      ((run decls32 video_pub (ticks 5)).getD (video_pub, [])).1 (ticks 5)
      ((run decls32 video_pub (ticks 5)).getD (video_pub, [])).2 (by decide) (by decide)⟩

/-- C6 (counterexample to the claim as stated): with a counter of 8, 16, 32 or 64
bits, the call number `2 ^ w + 2` of `on_timer` on the video publisher
`video_pub`, which starts with the counter at 0, sends no recovery request
although 6 divides `2 ^ w + 2`. -/
theorem tick_beyond_counter_range_is_silent :
    (6 ∣ 2 ^ 8 + 2 ∧ (ticks (2 ^ 8 + 1)).countP Op.is_timer + 1 = 2 ^ 8 + 2 ∧
      ∃ st evs, run (decls_bits 8) video_pub (ticks (2 ^ 8 + 1)) = some (st, evs) ∧
        sent_rtcp (on_timer (decls_bits 8) st).2 = []) ∧
    (6 ∣ 2 ^ 16 + 2 ∧ (ticks (2 ^ 16 + 1)).countP Op.is_timer + 1 = 2 ^ 16 + 2 ∧
      ∃ st evs, run (decls_bits 16) video_pub (ticks (2 ^ 16 + 1)) = some (st, evs) ∧
        sent_rtcp (on_timer (decls_bits 16) st).2 = []) ∧
    (6 ∣ 2 ^ 32 + 2 ∧ (ticks (2 ^ 32 + 1)).countP Op.is_timer + 1 = 2 ^ 32 + 2 ∧
      ∃ st evs, run (decls_bits 32) video_pub (ticks (2 ^ 32 + 1)) = some (st, evs) ∧
        sent_rtcp (on_timer (decls_bits 32) st).2 = []) ∧
    (6 ∣ 2 ^ 64 + 2 ∧ (ticks (2 ^ 64 + 1)).countP Op.is_timer + 1 = 2 ^ 64 + 2 ∧
      ∃ st evs, run (decls_bits 64) video_pub (ticks (2 ^ 64 + 1)) = some (st, evs) ∧
        sent_rtcp (on_timer (decls_bits 64) st).2 = []) :=
  ⟨⟨by norm_num, by rw [countP_is_timer_ticks],
      tick_after_wrap 8 (by norm_num) video_pub rfl⟩,
    ⟨by norm_num, by rw [countP_is_timer_ticks],
      tick_after_wrap 16 (by norm_num) video_pub rfl⟩,
    ⟨by norm_num, by rw [countP_is_timer_ticks],
      tick_after_wrap 32 (by norm_num) video_pub rfl⟩,
    ⟨by norm_num, by rw [countP_is_timer_ticks],
      tick_after_wrap 64 (by norm_num) video_pub rfl⟩⟩

/-- C7 (as amended): on a video publisher, a non-null loss signal of either origin
(`rtp_packet_reset`, `pack_handle_reset`) carrying a packet with source
identifier `s` leaves the publisher, its tick counter included, unchanged and
does not look at the counter; it sends exactly one recovery request, from sender
1 and addressed to `s`, when `s` is the primary source identifier, and sends
nothing when `s` is any other identifier. -/
theorem reset_requests_keyframe (st : rtc_publisher) (info : rtp_packet_info)
    (hv : st.media_type_ = "video") :
    (rtp_packet_reset st (some info)).1 = st ∧
    (pack_handle_reset st (some info)).1 = st ∧
    sent_rtcp (rtp_packet_reset st (some info)).2 =
      (if info.pkt.ssrc = st.rtp_ssrc_ then
        [{ sender_ssrc := 1, media_ssrc := info.pkt.ssrc }] else []) ∧
    sent_rtcp (pack_handle_reset st (some info)).2 =
      (if info.pkt.ssrc = st.rtp_ssrc_ then
        [{ sender_ssrc := 1, media_ssrc := info.pkt.ssrc }] else []) := by
  have h1 : rtp_packet_reset st (some info) =
      (st, Event.log_warnf :: request_keyframe st info.pkt.ssrc) := by
    simp [rtp_packet_reset, hv]
  have h2 : pack_handle_reset st (some info) =
      (st, Event.log_warnf :: request_keyframe st info.pkt.ssrc) := rfl
  rw [h1, h2]
  refine ⟨rfl, rfl, ?_, ?_⟩ <;>
    simp only [sent_rtcp, sent_rtcp_request_keyframe]

theorem reset_requests_keyframe_witness :
    video_pub.media_type_ = "video" ∧
    (rtp_packet_reset video_pub (some ⟨mk_pkt 1111 96⟩)).1 = video_pub ∧
    (pack_handle_reset video_pub (some ⟨mk_pkt 1111 96⟩)).1 = video_pub ∧
    sent_rtcp (rtp_packet_reset video_pub (some ⟨mk_pkt 1111 96⟩)).2 =
      (if (mk_pkt 1111 96).ssrc = video_pub.rtp_ssrc_ then
        [{ sender_ssrc := 1, media_ssrc := (mk_pkt 1111 96).ssrc }] else []) ∧
    sent_rtcp (pack_handle_reset video_pub (some ⟨mk_pkt 1111 96⟩)).2 =
      (if (mk_pkt 1111 96).ssrc = video_pub.rtp_ssrc_ then
        [{ sender_ssrc := 1, media_ssrc := (mk_pkt 1111 96).ssrc }] else []) :=
  ⟨by decide, reset_requests_keyframe video_pub ⟨mk_pkt 1111 96⟩ (by decide)⟩

/-- C7 (counterexample to the claim as stated): on the video publisher
`video_pub` (primary identifier 1111), a loss signal of either origin that
carries a packet with source identifier 2222 sends no recovery request. -/
theorem reset_other_ssrc_sends_nothing :
    video_pub.media_type_ = "video" ∧
    sent_rtcp (rtp_packet_reset video_pub (some ⟨mk_pkt 2222 97⟩)).2 = [] ∧
    sent_rtcp (pack_handle_reset video_pub (some ⟨mk_pkt 2222 97⟩)).2 = [] ∧
    (rtp_packet_reset video_pub (some ⟨mk_pkt 2222 97⟩)).2 =
      [Event.log_warnf, Event.log_errorf] := by
  decide

/-! ### Timestamps -/

theorem wrap_int64_of_in (x : Int) (h : in_int64 x) : wrap_int64 x = x := by
  obtain ⟨h1, h2⟩ := h
  unfold wrap_int64
  rw [Int.emod_eq_of_lt (by omega) (by omega)]
  omega

theorem tdiv_le_tdiv (a b c : Int) (hc : 0 < c) (h : a ≤ b) :
    Int.tdiv a c ≤ Int.tdiv b c := by
  rcases le_or_lt 0 a with ha | ha
  · rw [Int.tdiv_eq_ediv ha hc.le, Int.tdiv_eq_ediv (ha.trans h) hc.le]
    exact Int.ediv_le_ediv hc h
  · rcases le_or_lt 0 b with hb | hb
    · have h1 : Int.tdiv a c ≤ 0 := by
        have := @Int.tdiv_nonneg (-a) c (by omega) hc.le
        rw [Int.neg_tdiv] at this
        omega
      exact h1.trans (Int.tdiv_nonneg hb hc.le)
    · have e1 : Int.tdiv a c = -((-a) / c) := by
        rw [← Int.tdiv_eq_ediv (by omega) hc.le, Int.neg_tdiv, neg_neg]
      have e2 : Int.tdiv b c = -((-b) / c) := by
        rw [← Int.tdiv_eq_ediv (by omega) hc.le, Int.neg_tdiv, neg_neg]
      rw [e1, e2]
      have := @Int.ediv_le_ediv (-b) (-a) c hc (by omega)
      omega

theorem set_rtmp_info_ts (E : Decls) (st : rtc_publisher) (p q : MEDIA_PACKET)
    (hcr : 0 < st.clock_rate_) (h : set_rtmp_info E st p = some q) :
    q.dts_ = Int.tdiv (wrap_int64 (p.dts_ * 1000)) st.clock_rate_ ∧
    q.pts_ = Int.tdiv (wrap_int64 (p.pts_ * 1000)) st.clock_rate_ := by
  rw [set_rtmp_info_of_pos E st p hcr, Option.some.injEq] at h
  subst h
  exact ⟨rfl, rfl⟩

theorem make_seq_pkt_ts (E : Decls) (st : rtc_publisher) (pkt q : MEDIA_PACKET)
    (data : List Nat)
    (hcr : 0 < st.clock_rate_) (h : make_seq_pkt E st pkt data = some q) :
    q.dts_ = Int.tdiv (wrap_int64 (pkt.dts_ * 1000)) st.clock_rate_ ∧
    q.pts_ = Int.tdiv (wrap_int64 (pkt.pts_ * 1000)) st.clock_rate_ := by
  simp only [make_seq_pkt, set_rtmp_info_of_pos _ _ _ hcr, Option.map_some',
    Option.some.injEq] at h
  subst h
  exact ⟨rfl, rfl⟩

/-- Every unit that `media_packet_output` hands to `on_rtmp_callback` carries the
timestamps of the input unit rescaled once by the expression of lines 330-331. -/
theorem media_packet_output_ts (E : Decls) (st st' : rtc_publisher) (pkt : MEDIA_PACKET)
    (evs : List Event) (hcr : 0 < st.clock_rate_)
    (h : media_packet_output E st pkt = some (st', evs)) :
    ∀ p ∈ rtmp_output evs,
      p.dts_ = Int.tdiv (wrap_int64 (pkt.dts_ * 1000)) st.clock_rate_ ∧
      p.pts_ = Int.tdiv (wrap_int64 (pkt.pts_ * 1000)) st.clock_rate_ := by
  unfold media_packet_output at h
  split at h
  · split at h
    · simp only at h
      split at h
      · simp at h
      · cases hs : make_seq_pkt E st pkt (E.get_video_extradata st.pps_data_ st.sps_data_) with
        | none => simp [hs] at h
        | some seq_pkt =>
          simp only [hs] at h
          obtain ⟨-, buf, out, -, ho, rfl⟩ := video_emit_eq _ _ _ _ _ _ h
          intro p hp
          simp only [List.singleton_append, rtmp_output, List.mem_cons, List.mem_singleton,
            List.not_mem_nil, or_false] at hp
          rcases hp with rfl | rfl
          · exact make_seq_pkt_ts E st pkt _ _ hcr hs
          · have hts := set_rtmp_info_ts E st _ _ hcr ho
            exact hts
    · split at h
      · obtain ⟨-, hev⟩ := video_seq_hdr_eq _ _ _ _ h
        rcases hev with rfl | rfl <;> simp [rtmp_output]
      · obtain ⟨-, buf, out, -, ho, rfl⟩ := video_emit_eq _ _ _ _ _ _ h
        intro p hp
        simp only [List.nil_append, rtmp_output, List.mem_singleton] at hp
        subst hp
        have hts := set_rtmp_info_ts E st _ _ hcr ho
        exact hts
  · split at h
    · cases hs : make_seq_pkt E st pkt opus_seq_data with
      | none => simp [hs] at h
      | some seq_pkt =>
        simp only [hs] at h
        obtain ⟨-, out, ho, rfl⟩ := audio_emit_eq _ _ _ _ _ _ h
        intro p hp
        simp only [List.singleton_append, rtmp_output, List.mem_cons, List.mem_singleton,
          List.not_mem_nil, or_false] at hp
        rcases hp with rfl | rfl
        · exact make_seq_pkt_ts E st pkt _ _ hcr hs
        · exact set_rtmp_info_ts E _ pkt out hcr ho
    · obtain ⟨-, out, ho, rfl⟩ := audio_emit_eq _ _ _ _ _ _ h
      intro p hp
      simp only [List.nil_append, rtmp_output, List.mem_singleton] at hp
      subst hp
      exact set_rtmp_info_ts E st pkt out hcr ho

theorem video_seq_hdr_isSome (st : rtc_publisher) (pkt : MEDIA_PACKET)
    (h : 5 ≤ pkt.buffer.length) : (video_seq_hdr st pkt).isSome = true := by
  unfold video_seq_hdr
  have hb : pkt.buffer[4]? = some (pkt.buffer[4]) := List.getElem?_eq_getElem (by omega)
  rw [hb]
  simp only
  split
  · rfl
  · split <;> rfl

/-- With a positive clock rate `media_packet_output` has a result on every unit
that fits. -/
theorem media_packet_output_isSome (E : Decls) (st : rtc_publisher) (pkt : MEDIA_PACKET)
    (hcr : 0 < st.clock_rate_) (hfit : unit_fits E st pkt) :
    (media_packet_output E st pkt).isSome = true := by
  unfold unit_fits at hfit
  unfold media_packet_output
  by_cases hv : pkt.av_type_ = .MEDIA_VIDEO_TYPE
  · have hf := hfit hv
    rw [if_pos hv]
    by_cases hk : pkt.is_key_frame_ = true
    · rw [if_pos hk] at hf
      simp only [hk, if_true, if_neg (Nat.not_lt.mpr hf.2), make_seq_pkt, video_emit,
        set_rtmp_info_of_pos _ _ _ hcr, Option.map_some', write_nalu_len_of_le _ hf.1,
        Option.isSome_some]
    · rw [if_neg hk] at hf
      rw [if_neg hk]
      by_cases hh : pkt.is_seq_hdr_ = true
      · rw [if_pos hh] at hf
        rw [if_pos hh]
        exact video_seq_hdr_isSome st pkt hf
      · rw [if_neg hh] at hf
        rw [if_neg hh]
        simp only [video_emit, set_rtmp_info_of_pos _ _ _ hcr, write_nalu_len_of_le _ hf,
          Option.isSome_some]
  · rw [if_neg hv]
    have hcr1 : 0 < ({ st with first_flv_audio_ := false } : rtc_publisher).clock_rate_ := hcr
    split <;>
      simp only [make_seq_pkt, audio_emit, set_rtmp_info_of_pos _ _ _ hcr,
        set_rtmp_info_of_pos _ _ _ hcr1, Option.map_some', Option.isSome_some]

/-- C8 (as amended): on a publisher with `clock_rate_ > 0`, for every access unit
whose `dts * 1000` and `pts * 1000` fit the 64-bit signed timestamp field,
`media_packet_output` has a result whenever the unit fits its buffer accesses,
and every unit it hands to the container-output callback (the unit itself and a
header synthesized ahead of it) carries `dts * 1000 / clock_rate` and
`pts * 1000 / clock_rate`, truncated, of the input unit: rescaled exactly once.
With `clock_rate = 90000`, `dts = 180000` becomes 2000. -/
theorem media_packet_output_rescales (E : Decls) (st : rtc_publisher) (pkt : MEDIA_PACKET)
    (hcr : 0 < st.clock_rate_) (hd : in_int64 (pkt.dts_ * 1000))
    (hp : in_int64 (pkt.pts_ * 1000)) :
    (unit_fits E st pkt → (media_packet_output E st pkt).isSome = true) ∧
    (∀ st' evs, media_packet_output E st pkt = some (st', evs) →
      ∀ p ∈ rtmp_output evs,
        p.dts_ = Int.tdiv (pkt.dts_ * 1000) st.clock_rate_ ∧
        p.pts_ = Int.tdiv (pkt.pts_ * 1000) st.clock_rate_) ∧
    rescale 90000 180000 = some 2000 := by
  refine ⟨media_packet_output_isSome E st pkt hcr, fun st' evs h p hmem => ?_, by decide⟩
  have hts := media_packet_output_ts E st st' pkt evs hcr h p hmem
  rw [wrap_int64_of_in _ hd, wrap_int64_of_in _ hp] at hts
  exact hts

theorem media_packet_output_rescales_witness :
    0 < video_pub.clock_rate_ ∧
    in_int64 ((video_unit true false 180000 [0, 0, 0, 1, 101, 9]).dts_ * 1000) ∧
    in_int64 ((video_unit true false 180000 [0, 0, 0, 1, 101, 9]).pts_ * 1000) ∧
    unit_fits decls32 video_pub (video_unit true false 180000 [0, 0, 0, 1, 101, 9]) ∧
    (rtmp_output ((media_packet_output decls32 video_pub
        (video_unit true false 180000 [0, 0, 0, 1, 101, 9])).getD (video_pub, [])).2).map
      (fun p => (p.is_seq_hdr_, p.dts_, p.pts_)) =
        [(true, 2000, 2000), (false, 2000, 2000)] ∧
    (unit_fits decls32 video_pub (video_unit true false 180000 [0, 0, 0, 1, 101, 9]) →
      (media_packet_output decls32 video_pub
        (video_unit true false 180000 [0, 0, 0, 1, 101, 9])).isSome = true) ∧
    (∀ st' evs, media_packet_output decls32 video_pub
        (video_unit true false 180000 [0, 0, 0, 1, 101, 9]) = some (st', evs) →
      ∀ p ∈ rtmp_output evs,
        p.dts_ = Int.tdiv ((video_unit true false 180000 [0, 0, 0, 1, 101, 9]).dts_ * 1000)
          video_pub.clock_rate_ ∧
        p.pts_ = Int.tdiv ((video_unit true false 180000 [0, 0, 0, 1, 101, 9]).pts_ * 1000)
          video_pub.clock_rate_) ∧
    rescale 90000 180000 = some 2000 :=
  ⟨by decide, by decide, by decide, by decide, by decide,
    media_packet_output_rescales decls32 video_pub
      (video_unit true false 180000 [0, 0, 0, 1, 101, 9])
      (by decide) (by decide) (by decide)⟩

/-- C8 (counterexample to the claim as stated): with `clock_rate_ = 90000` a video
frame with `dts = pts = 9223372036854776` is handed to the callback with
`dts = -102481911520608`, while `dts * 1000 / clock_rate` truncated is
`102481911520608`: the product `dts * 1000` does not fit the 64-bit field. -/
theorem rescale_overflow_changes_dts :
    0 < video_pub.clock_rate_ ∧
    (rtmp_output ((media_packet_output decls32 video_pub
        (video_unit false false 9223372036854776 [0, 0, 0, 1, 65])).getD (video_pub, [])).2).map
      (fun p => p.dts_) = [-102481911520608] ∧
    Int.tdiv ((video_unit false false 9223372036854776 [0, 0, 0, 1, 65]).dts_ * 1000)
      video_pub.clock_rate_ = 102481911520608 := by
  decide

/-- C9 (as amended): `set_rtmp_info` preserves the order of decode timestamps
whose product with 1000 fits the 64-bit signed field: with `clock_rate_ > 0` and
`dts_a ≤ dts_b`, both calls have a result, each result carries
`dts * 1000 / clock_rate` truncated, and `ms_a ≤ ms_b`. -/
theorem set_rtmp_info_monotone (E : Decls) (st : rtc_publisher) (pa pb : MEDIA_PACKET)
    (hcr : 0 < st.clock_rate_) (hle : pa.dts_ ≤ pb.dts_)
    (ha : in_int64 (pa.dts_ * 1000)) (hb : in_int64 (pb.dts_ * 1000)) :
    ∃ qa qb, set_rtmp_info E st pa = some qa ∧ set_rtmp_info E st pb = some qb ∧
      qa.dts_ = Int.tdiv (pa.dts_ * 1000) st.clock_rate_ ∧
      qb.dts_ = Int.tdiv (pb.dts_ * 1000) st.clock_rate_ ∧
      qa.dts_ ≤ qb.dts_ := by
  refine ⟨_, _, set_rtmp_info_of_pos E st pa hcr, set_rtmp_info_of_pos E st pb hcr,
    ?_, ?_, ?_⟩
  · show Int.tdiv (wrap_int64 (pa.dts_ * 1000)) st.clock_rate_ = _
    rw [wrap_int64_of_in _ ha]
  · show Int.tdiv (wrap_int64 (pb.dts_ * 1000)) st.clock_rate_ = _
    rw [wrap_int64_of_in _ hb]
  · show Int.tdiv (wrap_int64 (pa.dts_ * 1000)) st.clock_rate_ ≤
      Int.tdiv (wrap_int64 (pb.dts_ * 1000)) st.clock_rate_
    rw [wrap_int64_of_in _ ha, wrap_int64_of_in _ hb]
    exact tdiv_le_tdiv _ _ _ hcr (by omega)

theorem set_rtmp_info_monotone_witness :
    0 < video_pub.clock_rate_ ∧
    (video_unit false false 90000 []).dts_ ≤ (video_unit false false 180000 []).dts_ ∧
    in_int64 ((video_unit false false 90000 []).dts_ * 1000) ∧
    in_int64 ((video_unit false false 180000 []).dts_ * 1000) ∧
    ∃ qa qb, set_rtmp_info decls32 video_pub (video_unit false false 90000 []) = some qa ∧
      set_rtmp_info decls32 video_pub (video_unit false false 180000 []) = some qb ∧
      qa.dts_ = Int.tdiv ((video_unit false false 90000 []).dts_ * 1000) video_pub.clock_rate_ ∧
      qb.dts_ = Int.tdiv ((video_unit false false 180000 []).dts_ * 1000) video_pub.clock_rate_ ∧
      qa.dts_ ≤ qb.dts_ :=
  ⟨by decide, by decide, by decide, by decide,
    set_rtmp_info_monotone decls32 video_pub (video_unit false false 90000 [])
      (video_unit false false 180000 [])
      (by decide) (by decide) (by decide) (by decide)⟩

/-- C9 (counterexample to the claim as stated): with `clock_rate_ = 90000` the
timestamps `9223372036854775 ≤ 9223372036854776`, both representable in 64 signed
bits, are rescaled by `set_rtmp_info` to `102481911520608` and
`-102481911520608`: the order is reversed. -/
theorem set_rtmp_info_order_reversed :
    0 < video_pub.clock_rate_ ∧
    in_int64 9223372036854775 ∧ in_int64 9223372036854776 ∧
    (9223372036854775 : Int) ≤ 9223372036854776 ∧
    (set_rtmp_info decls32 video_pub (video_unit false false 9223372036854775 [])).map (fun q => q.dts_) =
      some 102481911520608 ∧
    (set_rtmp_info decls32 video_pub (video_unit false false 9223372036854776 [])).map (fun q => q.dts_) =
      some (-102481911520608) ∧
    ¬((102481911520608 : Int) ≤ -102481911520608) := by
  decide

/-! ### Parameter-set cache -/

theorem seq_hdr_branch_eq (E : Decls) (st : rtc_publisher) (pkt : MEDIA_PACKET)
    (hv : pkt.av_type_ = .MEDIA_VIDEO_TYPE) (hk : pkt.is_key_frame_ = false)
    (hh : pkt.is_seq_hdr_ = true) :
    media_packet_output E st pkt = video_seq_hdr st pkt := by
  simp only [media_packet_output, hv, hk, hh, if_true, Bool.false_eq_true, if_false]

/-- C10: a video unit flagged as parameter-set unit and not as keyframe, whose
buffer holds the subtype byte `b` at offset 4, makes `media_packet_output` return
without any call to the container-output callback. With subtype
`b & 0x1f = kAvcNaluTypeSPS` the SPS slot becomes the bytes after the first four
and nothing else changes; with subtype `kAvcNaluTypePPS` the PPS slot becomes
those bytes and nothing else changes; with any other subtype the publisher is
unchanged (only an error is logged), so later units are handled as before. -/
theorem media_packet_output_seq_hdr (E : Decls) (st : rtc_publisher) (pkt : MEDIA_PACKET)
    (b : Nat) (hv : pkt.av_type_ = .MEDIA_VIDEO_TYPE) (hk : pkt.is_key_frame_ = false)
    (hh : pkt.is_seq_hdr_ = true) (hb : pkt.buffer[4]? = some b) :
    ∃ st' evs, media_packet_output E st pkt = some (st', evs) ∧
      rtmp_output evs = [] ∧
      (b &&& 0x1f = kAvcNaluTypeSPS →
        st' = { st with sps_data_ := pkt.buffer.drop 4 } ∧
        st'.sps_data_ = pkt.buffer.drop 4 ∧ st'.pps_data_ = st.pps_data_) ∧
      (b &&& 0x1f = kAvcNaluTypePPS →
        st' = { st with pps_data_ := pkt.buffer.drop 4 } ∧
        st'.pps_data_ = pkt.buffer.drop 4 ∧ st'.sps_data_ = st.sps_data_) ∧
      (b &&& 0x1f ≠ kAvcNaluTypeSPS → b &&& 0x1f ≠ kAvcNaluTypePPS →
        st' = st ∧ evs = [Event.log_errorf]) := by
  rw [seq_hdr_branch_eq E st pkt hv hk hh]
  unfold video_seq_hdr
  rw [hb]
  simp only [kAvcNaluTypeSPS, kAvcNaluTypePPS]
  by_cases h7 : b &&& 0x1f = 7
  · refine ⟨{ st with sps_data_ := pkt.buffer.drop 4 }, [],
      by rw [if_pos (by simpa using h7)], rfl, ?_, ?_, ?_⟩
    · intro _; exact ⟨rfl, rfl, rfl⟩
    · intro h8; rw [h7] at h8; exact absurd h8 (by decide)
    · intro hn; exact absurd h7 hn
  · by_cases h8 : b &&& 0x1f = 8
    · refine ⟨{ st with pps_data_ := pkt.buffer.drop 4 }, [],
        by rw [if_neg (by simpa using h7), if_pos (by simpa using h8)], rfl, ?_, ?_, ?_⟩
      · intro hc; exact absurd hc h7
      · intro _; exact ⟨rfl, rfl, rfl⟩
      · intro _ hn; exact absurd h8 hn
    · refine ⟨st, [Event.log_errorf],
        by rw [if_neg (by simpa using h7), if_neg (by simpa using h8)], rfl, ?_, ?_, ?_⟩
      · intro hc; exact absurd hc h7
      · intro hc; exact absurd hc h8
      · intro _ _; exact ⟨rfl, rfl⟩

theorem media_packet_output_seq_hdr_witness :
    (video_unit false true 0 [0, 0, 0, 1, 103, 66, 0, 31]).av_type_ = .MEDIA_VIDEO_TYPE ∧
    (video_unit false true 0 [0, 0, 0, 1, 103, 66, 0, 31]).is_key_frame_ = false ∧
    (video_unit false true 0 [0, 0, 0, 1, 103, 66, 0, 31]).is_seq_hdr_ = true ∧
    (video_unit false true 0 [0, 0, 0, 1, 103, 66, 0, 31]).buffer[4]? = some 103 ∧
    103 &&& 0x1f = kAvcNaluTypeSPS ∧
    media_packet_output decls32 video_pub (video_unit false true 0 [0, 0, 0, 1, 103, 66, 0, 31]) =
      some ({ video_pub with sps_data_ := [103, 66, 0, 31] }, []) ∧
    ∃ st' evs, media_packet_output decls32 video_pub
        (video_unit false true 0 [0, 0, 0, 1, 103, 66, 0, 31]) = some (st', evs) ∧
      rtmp_output evs = [] ∧
      (103 &&& 0x1f = kAvcNaluTypeSPS →
        st' = { video_pub with
          sps_data_ := (video_unit false true 0 [0, 0, 0, 1, 103, 66, 0, 31]).buffer.drop 4 } ∧
        st'.sps_data_ = (video_unit false true 0 [0, 0, 0, 1, 103, 66, 0, 31]).buffer.drop 4 ∧
        st'.pps_data_ = video_pub.pps_data_) ∧
      (103 &&& 0x1f = kAvcNaluTypePPS →
        st' = { video_pub with
          pps_data_ := (video_unit false true 0 [0, 0, 0, 1, 103, 66, 0, 31]).buffer.drop 4 } ∧
        st'.pps_data_ = (video_unit false true 0 [0, 0, 0, 1, 103, 66, 0, 31]).buffer.drop 4 ∧
        st'.sps_data_ = video_pub.sps_data_) ∧
      (103 &&& 0x1f ≠ kAvcNaluTypeSPS → 103 &&& 0x1f ≠ kAvcNaluTypePPS →
        st' = video_pub ∧ evs = [Event.log_errorf]) :=
  ⟨by decide, by decide, by decide, by decide, by decide, by decide,
    media_packet_output_seq_hdr decls32 video_pub
      (video_unit false true 0 [0, 0, 0, 1, 103, 66, 0, 31]) 103
      (by decide) (by decide) (by decide) (by decide)⟩

/-! ### Length bytes of emitted video units -/

/-- C13 (the code at the failing input): on the audio publisher `audio_pub`
(primary identifier 3333) the loss signal of the depacketizer,
`pack_handle_reset`, carrying a packet with identifier 3333 sends a recovery
request, while the same signal through `rtp_packet_reset` sends none. -/
theorem pack_handle_reset_audio_sends :
    audio_pub.media_type_ ≠ "video" ∧
    sent_rtcp (pack_handle_reset audio_pub (some ⟨mk_pkt 3333 111⟩)).2 =
      [{ sender_ssrc := 1, media_ssrc := 3333 }] ∧
    sent_rtcp (rtp_packet_reset audio_pub (some ⟨mk_pkt 3333 111⟩)).2 = [] := by
  decide

/-- C14: `request_keyframe st m` sends a control packet if and only if `m` is the
primary source identifier of `st`; it then makes exactly one call, sending one
picture-loss-indication packet with sender identifier 1 and media identifier
`m`; when `m` differs its only call is the error log and nothing is sent. The
function yields calls only: the members of the publisher are not assigned. -/
theorem request_keyframe_sends_iff (st : rtc_publisher) (m : Nat) :
    (sent_rtcp (request_keyframe st m) ≠ [] ↔ m = st.rtp_ssrc_) ∧
    request_keyframe st m =
      (if m = st.rtp_ssrc_ then
        [Event.send_rtcp_data_in_dtls { sender_ssrc := 1, media_ssrc := m }]
      else [Event.log_errorf]) ∧
    sent_rtcp (request_keyframe st m) =
      (if m = st.rtp_ssrc_ then [{ sender_ssrc := 1, media_ssrc := m }] else []) := by
  unfold request_keyframe
  by_cases h : m = st.rtp_ssrc_
  · rw [if_neg (fun hc => hc h.symm), if_pos h, if_pos h]
    simp [sent_rtcp, h]
  · rw [if_pos (fun hc => h hc.symm), if_neg h, if_neg h]
    simp [sent_rtcp, h]

/-! ### Headers of consecutive keyframes -/

theorem ctor_encodings_frame (encs : List RTP_ENCODING) :
    ∀ st : rtc_publisher,
      (ctor_encodings st encs).clock_rate_ = st.clock_rate_ ∧
      (ctor_encodings st encs).rtp_ssrc_ = st.rtp_ssrc_ := by
  induction encs with
  | nil => intro st; exact ⟨rfl, rfl⟩
  | cons e encs ih =>
    intro st
    simp only [ctor_encodings]
    split
    · exact ih _
    · exact ih _

theorem ctor_ssrc_infos_clock_rate (index : Nat) (infos : List SSRC_INFO) :
    ∀ st : rtc_publisher, (ctor_ssrc_infos index st infos).clock_rate_ = st.clock_rate_ := by
  induction infos with
  | nil => intro st; rfl
  | cons i infos ih =>
    intro st
    simp only [ctor_ssrc_infos]
    split
    · exact ih _
    · exact ih _

theorem ctor_extensions_frame (exts : List HEADER_EXT) :
    ∀ st : rtc_publisher,
      (ctor_extensions st exts).clock_rate_ = st.clock_rate_ ∧
      (ctor_extensions st exts).rtp_ssrc_ = st.rtp_ssrc_ := by
  induction exts with
  | nil => intro st; exact ⟨rfl, rfl⟩
  | cons e exts ih =>
    intro st
    simp only [ctor_extensions]
    split
    · exact ih _
    · split
      · exact ih _
      · exact ih _

theorem ctor_ssrcs_clock_rate (st p : rtc_publisher) (media_info : MEDIA_RTC_INFO)
    (h : ctor_ssrcs st media_info = .built p) : p.clock_rate_ = st.clock_rate_ := by
  unfold ctor_ssrcs at h
  split at h
  · simp only [construct_result.built.injEq] at h
    rw [← h]
    exact ctor_ssrc_infos_clock_rate 0 _ st
  · split at h
    · split at h
      · simp only [construct_result.built.injEq] at h
        rw [← h]
      · simp only [construct_result.built.injEq] at h
        rw [← h]
      · simp at h
    · split at h
      · simp only [construct_result.built.injEq] at h
        rw [← h]
      · simp at h

/-- C16 (as amended): the constructor validates neither the clock rate nor the
source identifiers. For a descriptor with at least one encoding, every publisher
it builds has the clock rate of the first encoding, whatever its sign; and when
the descriptor has no source-identifier group the construction always succeeds,
leaving, when there is no info entry either, the primary source identifier at
the value it had before the constructor body. -/
theorem construct_does_not_validate (init : rtc_publisher) (roomId uid : String)
    (media_info : MEDIA_RTC_INFO) (enc0 : RTP_ENCODING) (rest : List RTP_ENCODING)
    (henc : media_info.rtp_encodings = enc0 :: rest) :
    (∀ p, construct init roomId uid media_info = .built p →
      p.clock_rate_ = enc0.clock_rate) ∧
    (media_info.ssrc_groups = [] →
      ∃ p, construct init roomId uid media_info = .built p ∧
        p.clock_rate_ = enc0.clock_rate ∧
        (media_info.ssrc_infos = [] → p.rtp_ssrc_ = init.rtp_ssrc_)) := by
  constructor
  · intro p h
    simp only [construct, henc] at h
    split at h
    · rename_i st2 hs
      simp only [construct_result.built.injEq] at h
      rw [← h]
      show (ctor_extensions st2 media_info.header_extentions).clock_rate_ = _
      rw [(ctor_extensions_frame _ st2).1, ctor_ssrcs_clock_rate _ _ _ hs,
        (ctor_encodings_frame _ _).1]
    · simp at h
    · simp at h
  · intro hg
    simp only [construct, henc, ctor_ssrcs, hg]
    refine ⟨_, rfl, ?_, ?_⟩
    · show (ctor_extensions _ media_info.header_extentions).clock_rate_ = _
      rw [(ctor_extensions_frame _ _).1, ctor_ssrc_infos_clock_rate,
        (ctor_encodings_frame _ _).1]
    · intro hi
      show (ctor_extensions _ media_info.header_extentions).rtp_ssrc_ = _
      rw [(ctor_extensions_frame _ _).2, hi]
      simp only [ctor_ssrc_infos]
      rw [(ctor_encodings_frame _ _).2]

theorem construct_does_not_validate_witness :
    info_no_ssrc.rtp_encodings = { codec := "opus", payload := 111, clock_rate := 0 } :: [] ∧
    (∀ p, construct members_init "room" "user" info_no_ssrc = .built p →
      p.clock_rate_ =
        ({ codec := "opus", payload := 111, clock_rate := 0 } : RTP_ENCODING).clock_rate) ∧
    (info_no_ssrc.ssrc_groups = [] →
      ∃ p, construct members_init "room" "user" info_no_ssrc = .built p ∧
        p.clock_rate_ =
          ({ codec := "opus", payload := 111, clock_rate := 0 } : RTP_ENCODING).clock_rate ∧
        (info_no_ssrc.ssrc_infos = [] → p.rtp_ssrc_ = members_init.rtp_ssrc_)) :=
  ⟨by decide,
    construct_does_not_validate members_init "room" "user" info_no_ssrc
      { codec := "opus", payload := 111, clock_rate := 0 } [] (by decide)⟩

/-- C16 (counterexample to the claim as stated): the descriptor `info_no_ssrc`, with
clock rate 0, no source-identifier group and no info entry, is accepted: the
constructor builds a publisher with `clock_rate_ = 0` and primary source
identifier 0, which comes from no entry of the descriptor. -/
theorem construct_accepts_bad_descriptor :
    info_no_ssrc.rtp_encodings.map (fun e => e.clock_rate) = [0] ∧
    info_no_ssrc.ssrc_groups = [] ∧ info_no_ssrc.ssrc_infos = [] ∧
    (construct members_init "room" "user" info_no_ssrc).get_built.map
      (fun p => (p.clock_rate_, p.rtp_ssrc_)) = some (0, 0) := by
  decide

/-- C19 (the code at the failing input): for the descriptor `info_two_ssrc_infos`,
which has no source-identifier group and the info entries 1111 and 2222, the
constructor builds a publisher whose primary source identifier is 2222 and whose
redundancy source identifier is still 0: `index` stays 0, so every entry is
assigned to `rtp_ssrc_` and the last one wins. -/
theorem construct_ssrc_infos_last_wins :
    info_two_ssrc_infos.ssrc_groups = [] ∧
    info_two_ssrc_infos.ssrc_infos.map (fun i => i.ssrc) = [1111, 2222] ∧
    (construct members_init "room" "user" info_two_ssrc_infos).get_built.map
      (fun p => (p.rtp_ssrc_, p.rtx_ssrc_, p.has_rtx_)) = some (2222, 0, true) := by
  decide

/-! ### Teardown -/

/-- C17 (as amended): the destructor releases in the fixed order timer, receive
context, depacketizer: its releases are strictly increasing in that order, the
first one stops the timer, and an existing receive context and an existing
depacketizer are each released; so the receive context is released before the
depacketizer. -/
theorem destructor_order (st : rtc_publisher) :
    (destructor st).Pairwise (fun a b => a.rank_code < b.rank_code) ∧
    (destructor st).head? = some Release.stop_timer ∧
    (Release.delete_rtp_handler ∈ destructor st ↔ st.rtp_handler_ ≠ none) ∧
    (Release.delete_pack_handle ∈ destructor st ↔ st.pack_handle_ ≠ none) := by
  unfold destructor
  cases st.rtp_handler_ <;> cases st.pack_handle_ <;>
    simp [Release.rank_code]

/-- C17 (counterexample to the claim as stated): for the publisher reached by
`sample_ops`, which has a receive context and a depacketizer, the destructor
stops the timer, deletes the receive context and then deletes the depacketizer;
this is not the order timer, depacketizer, receive context. -/
theorem destructor_releases_recv_first :
    destructor sample_result.1 =
      [Release.stop_timer, Release.delete_rtp_handler, Release.delete_pack_handle] ∧
    ¬(destructor sample_result.1).Pairwise (fun a b => a.rank_spec < b.rank_spec) := by
  decide

/-! ### Safety -/

/-- C18 (the code at the failing input): on `video_pub`, which has no receive
context yet, and on the publisher just built from `info_two_ssrc_infos`,
`on_handle_rtcp_sr` has no defined result (the call goes through the null
`rtp_handler_`), whereas `on_timer` tests the pointer and is defined; once a
primary packet was handled the report is forwarded. -/
theorem on_handle_rtcp_sr_before_first_packet :
    video_pub.rtp_handler_ = none ∧
    on_handle_rtcp_sr video_pub ⟨1111⟩ = none ∧
    run decls32 video_pub [Op.rtcp_sr ⟨1111⟩] = none ∧
    ((construct members_init "room" "user" info_two_ssrc_infos).get_built.map
      (fun p => (p.rtp_handler_, on_handle_rtcp_sr p ⟨2222⟩))) = some (none, none) ∧
    (on_timer decls32 video_pub).2 = [] ∧
    (on_handle_rtcp_sr (on_handle_rtppacket video_pub (mk_pkt 1111 96)).1 ⟨1111⟩).map
      (fun r => r.2) = some [Event.recv_on_handle_rtcp_sr ⟨1111⟩] := by
  decide

/-- C20 (the code at the failing input): for a video frame of two bytes the length
`(uint32_t)data_len() - 4` wraps to 4294967294, there is no room for the four
length bytes and `media_packet_output` has no defined result; for a
parameter-set unit of four bytes there is no byte at offset 4 and
`media_packet_output` has no defined result either. -/
theorem media_packet_output_short_buffer :
    nalu_len 2 = 4294967294 ∧
    write_nalu_len (video_unit false false 0 [1, 2]).buffer = none ∧
    media_packet_output decls32 video_pub (video_unit false false 0 [1, 2]) = none ∧
    media_packet_output decls32 video_pub (video_unit true false 0 [1, 2]) = none ∧
    (video_unit false true 0 [0, 0, 0, 1]).buffer[4]? = none ∧
    media_packet_output decls32 video_pub (video_unit false true 0 [0, 0, 0, 1]) = none ∧
    media_packet_output decls32 video_pub (video_unit false true 0 []) = none := by
  decide

/-! ### Units handed to the container-output callback -/

/-- What `set_rtmp_info` returns, when it returns: the header-injection step applied
to the unit with routing keys and timestamps written. -/
theorem set_rtmp_info_eq (E : Decls) (st : rtc_publisher) (p q : MEDIA_PACKET)
    (h : set_rtmp_info E st p = some q) :
    ∃ r : MEDIA_PACKET, q = add_flv_media_header E r ∧ r.buffer = p.buffer ∧
      r.is_key_frame_ = p.is_key_frame_ ∧ r.is_seq_hdr_ = p.is_seq_hdr_ ∧
      r.av_type_ = p.av_type_ ∧ r.codec_type_ = p.codec_type_ := by
  unfold set_rtmp_info at h
  split at h
  · rename_i dts pts _ _
    simp only [Option.some.injEq] at h
    exact ⟨with_rtmp_info st p dts pts, h.symm, rfl, rfl, rfl, rfl, rfl⟩
  · simp at h

/-- What `make_seq_pkt` returns, when it returns: a header unit whose buffer is the
header-injection step applied to a header unit holding `data`. -/
theorem make_seq_pkt_eq (E : Decls) (st : rtc_publisher) (pkt hdr : MEDIA_PACKET)
    (data : List Nat) (h : make_seq_pkt E st pkt data = some hdr) :
    hdr.is_seq_hdr_ = true ∧ hdr.is_key_frame_ = false ∧ hdr.av_type_ = pkt.av_type_ ∧
    ∃ r : MEDIA_PACKET, hdr.buffer = E.flv_media_header_buffer r ∧ r.buffer = data ∧
      r.is_seq_hdr_ = true ∧ r.is_key_frame_ = false ∧ r.av_type_ = pkt.av_type_ := by
  unfold make_seq_pkt at h
  simp only [Option.map_eq_some'] at h
  obtain ⟨q, hq, rfl⟩ := h
  obtain ⟨r, rfl, hb, hk, hs, ha, -⟩ := set_rtmp_info_eq E st _ q hq
  refine ⟨hs, hk, ha, r, rfl, ?_, hs, hk, ha⟩
  rw [hb]
  simp [MEDIA_PACKET.copy_properties, MEDIA_PACKET.make]

/-- What `video_emit` returns, when it returns: the unit had at least four bytes,
the publisher is unchanged and the unit is handed over after `before`, its buffer
being the header-injection step applied to the unit with the length bytes
written. -/
theorem video_emit_out (E : Decls) (st st' : rtc_publisher) (pkt : MEDIA_PACKET)
    (before evs : List Event) (h : video_emit E st pkt before = some (st', evs)) :
    st' = st ∧ 4 ≤ pkt.buffer.length ∧
    ∃ out q : MEDIA_PACKET, evs = before ++ [rtmp_call st out] ∧
      out.buffer = E.flv_media_header_buffer q ∧
      q.buffer = write_4bytes (nalu_len pkt.buffer.length) ++ pkt.buffer.drop 4 ∧
      q.is_key_frame_ = pkt.is_key_frame_ ∧ q.is_seq_hdr_ = pkt.is_seq_hdr_ ∧
      q.av_type_ = pkt.av_type_ ∧
      out.is_key_frame_ = pkt.is_key_frame_ ∧ out.is_seq_hdr_ = pkt.is_seq_hdr_ ∧
      out.av_type_ = pkt.av_type_ ∧ out.codec_type_ = pkt.codec_type_ := by
  obtain ⟨hst, buf, out, hb, ho, hev⟩ := video_emit_eq E st st' pkt before evs h
  have hlen : 4 ≤ pkt.buffer.length := by
    by_contra hc
    simp [write_nalu_len, Nat.lt_of_not_le hc] at hb
  rw [write_nalu_len_of_le _ hlen, Option.some.injEq] at hb
  obtain ⟨q, rfl, hqb, hqk, hqs, hqa, hqc⟩ := set_rtmp_info_eq E st _ out ho
  exact ⟨hst, hlen, _, q, hev, rfl, hqb.trans hb.symm, hqk, hqs, hqa, hqk, hqs, hqa, hqc⟩

/-- The keyframe branch, when it returns: the publisher is unchanged and exactly two
calls are made, the synthesized header and then the unit. -/
theorem key_frame_step (E : Decls) (st st' : rtc_publisher) (pkt : MEDIA_PACKET)
    (evs : List Event) (hv : pkt.av_type_ = .MEDIA_VIDEO_TYPE)
    (hk : pkt.is_key_frame_ = true)
    (h : media_packet_output E st pkt = some (st', evs)) :
    st' = st ∧ 4 ≤ pkt.buffer.length ∧
    ∃ hdr out r q : MEDIA_PACKET, evs = [rtmp_call st hdr, rtmp_call st out] ∧
      hdr.is_seq_hdr_ = true ∧ hdr.is_key_frame_ = false ∧
      hdr.av_type_ = .MEDIA_VIDEO_TYPE ∧
      hdr.buffer = E.flv_media_header_buffer r ∧
      r.buffer = E.get_video_extradata st.pps_data_ st.sps_data_ ∧
      r.is_seq_hdr_ = true ∧ r.is_key_frame_ = false ∧
      out.is_key_frame_ = true ∧ out.is_seq_hdr_ = pkt.is_seq_hdr_ ∧
      out.av_type_ = .MEDIA_VIDEO_TYPE ∧ out.codec_type_ = pkt.codec_type_ ∧
      out.buffer = E.flv_media_header_buffer q ∧
      q.buffer = write_4bytes (nalu_len pkt.buffer.length) ++ pkt.buffer.drop 4 ∧
      q.is_key_frame_ = true ∧ q.is_seq_hdr_ = pkt.is_seq_hdr_ := by
  simp only [media_packet_output, hv, hk, if_true] at h
  split at h
  · simp at h
  · cases hs : make_seq_pkt E st pkt (E.get_video_extradata st.pps_data_ st.sps_data_) with
    | none => simp [hs] at h
    | some hdr =>
      simp only [hs] at h
      obtain ⟨a1, a2, a3, r, a4, a5, a6, a7, -⟩ := make_seq_pkt_eq E st pkt hdr _ hs
      obtain ⟨hst, hlen, out, q, hev, b1, b2, b3, b4, -, b6, b7, b8, b9⟩ :=
        video_emit_out E st st' pkt _ evs h
      exact ⟨hst, hlen, hdr, out, r, q, hev, a1, a2, a3.trans hv, a4, a5, a6, a7,
        b6.trans hk, b7, b8.trans hv, b9, b1, b2, b3.trans hk, b4⟩

/-- C5 (as amended): on a publisher with a positive clock rate, a video access unit
with the keyframe flag set that holds at least its four leading bytes, the
extradata of the cache fitting the 2048-byte array, makes `media_packet_output`
return with the publisher unchanged after exactly two calls, both
`on_rtmp_callback`: first the synthesized header `hdr` (header flag set,
keyframe flag cleared), whose buffer is what the header-injection step makes of
a header unit `r` holding the extradata of the cached PPS and SPS, then the
keyframe unit `out` itself, whose buffer is what the step makes of the unit `q`
with the length bytes written. -/
theorem media_packet_output_keyframe (E : Decls) (st : rtc_publisher) (pkt : MEDIA_PACKET)
    (hv : pkt.av_type_ = .MEDIA_VIDEO_TYPE) (hk : pkt.is_key_frame_ = true)
    (hcr : 0 < st.clock_rate_) (hlen : 4 ≤ pkt.buffer.length)
    (hex : (E.get_video_extradata st.pps_data_ st.sps_data_).length ≤ 2048) :
    ∃ hdr out r q : MEDIA_PACKET,
      media_packet_output E st pkt =
        some (st, [Event.on_rtmp_callback st.roomId_ st.uid_ st.stream_type_ hdr,
                   Event.on_rtmp_callback st.roomId_ st.uid_ st.stream_type_ out]) ∧
      hdr.is_seq_hdr_ = true ∧ hdr.is_key_frame_ = false ∧
      hdr.av_type_ = .MEDIA_VIDEO_TYPE ∧
      hdr.buffer = E.flv_media_header_buffer r ∧
      r.buffer = E.get_video_extradata st.pps_data_ st.sps_data_ ∧
      r.is_seq_hdr_ = true ∧ r.is_key_frame_ = false ∧
      out.is_key_frame_ = true ∧ out.is_seq_hdr_ = pkt.is_seq_hdr_ ∧
      out.av_type_ = .MEDIA_VIDEO_TYPE ∧ out.codec_type_ = pkt.codec_type_ ∧
      out.buffer = E.flv_media_header_buffer q ∧
      q.buffer = write_4bytes (nalu_len pkt.buffer.length) ++ pkt.buffer.drop 4 ∧
      q.is_key_frame_ = true ∧ q.is_seq_hdr_ = pkt.is_seq_hdr_ := by
  have hfit : unit_fits E st pkt := by
    intro _
    rw [if_pos hk]
    exact ⟨hlen, hex⟩
  have hsome := media_packet_output_isSome E st pkt hcr hfit
  obtain ⟨⟨st', evs⟩, h⟩ := Option.isSome_iff_exists.mp hsome
  obtain ⟨rfl, -, hdr, out, r, q, rfl, rest⟩ := key_frame_step E st st' pkt evs hv hk h
  exact ⟨hdr, out, r, q, h, rest⟩

theorem media_packet_output_keyframe_witness :
    (key_unit 180000).av_type_ = .MEDIA_VIDEO_TYPE ∧
    (key_unit 180000).is_key_frame_ = true ∧
    0 < video_pub.clock_rate_ ∧
    4 ≤ (key_unit 180000).buffer.length ∧
    (decls32.get_video_extradata video_pub.pps_data_ video_pub.sps_data_).length ≤ 2048 ∧
    (rtmp_output ((media_packet_output decls32 video_pub (key_unit 180000)).getD
        (video_pub, [])).2).map (fun p => (p.is_seq_hdr_, p.is_key_frame_, p.buffer)) =
      [(true, false, [23, 0, 0, 0, 0]),
       (false, true, [23, 1, 0, 0, 0, 0, 0, 0, 2, 101, 9])] ∧
    ∃ hdr out r q : MEDIA_PACKET,
      media_packet_output decls32 video_pub (key_unit 180000) =
        some (video_pub,
          [Event.on_rtmp_callback video_pub.roomId_ video_pub.uid_ video_pub.stream_type_ hdr,
           Event.on_rtmp_callback video_pub.roomId_ video_pub.uid_ video_pub.stream_type_
             out]) ∧
      hdr.is_seq_hdr_ = true ∧ hdr.is_key_frame_ = false ∧
      hdr.av_type_ = .MEDIA_VIDEO_TYPE ∧
      hdr.buffer = decls32.flv_media_header_buffer r ∧
      r.buffer = decls32.get_video_extradata video_pub.pps_data_ video_pub.sps_data_ ∧
      r.is_seq_hdr_ = true ∧ r.is_key_frame_ = false ∧
      out.is_key_frame_ = true ∧ out.is_seq_hdr_ = (key_unit 180000).is_seq_hdr_ ∧
      out.av_type_ = .MEDIA_VIDEO_TYPE ∧ out.codec_type_ = (key_unit 180000).codec_type_ ∧
      out.buffer = decls32.flv_media_header_buffer q ∧
      q.buffer = write_4bytes (nalu_len (key_unit 180000).buffer.length) ++
        (key_unit 180000).buffer.drop 4 ∧
      q.is_key_frame_ = true ∧ q.is_seq_hdr_ = (key_unit 180000).is_seq_hdr_ :=
  ⟨by decide, by decide, by decide, by decide, by decide, by decide,
    media_packet_output_keyframe decls32 video_pub (key_unit 180000)
      (by decide) (by decide) (by decide) (by decide) (by decide)⟩

/-- C5 (counterexample to the claim as stated): the video publisher that the
constructor builds from `info_video_clock0` has clock rate 0, and a keyframe unit
passed to it delivers nothing: `media_packet_output` has no result, the division
of line 330 being by zero. Moreover, on `video_pub` with the header-injection
step `flv_header_in_front`, the header delivered for a keyframe holds the five
injected bytes, while the extradata of the (empty) cache is empty. -/
theorem keyframe_on_clock_rate_zero :
    (construct members_init "room" "user" info_video_clock0).get_built.map
      (fun p => (p.media_type_, p.clock_rate_,
        media_packet_output decls32 p (key_unit 0))) = some ("video", 0, none) ∧
    decls32.get_video_extradata video_pub.pps_data_ video_pub.sps_data_ = [] ∧
    (rtmp_output ((media_packet_output decls32 video_pub (key_unit 0)).getD
        (video_pub, [])).2).map (fun p => p.buffer) =
      [[23, 0, 0, 0, 0], [23, 1, 0, 0, 0, 0, 0, 0, 2, 101, 9]] := by
  decide

theorem audio_emit_of_pos (E : Decls) (st : rtc_publisher) (pkt : MEDIA_PACKET)
    (before : List Event) (hcr : 0 < st.clock_rate_) :
    ∃ out : MEDIA_PACKET, audio_out E st pkt = some out ∧
      audio_emit E st pkt before = some (st, before ++ [rtmp_call st out]) := by
  simp only [audio_emit, audio_out, set_rtmp_info_of_pos _ _ _ hcr, Option.map_some']
  exact ⟨_, rfl, rfl⟩

/-- Audio units handled after the first one: each is handed over once, tagged, and
nothing else is. -/
theorem run_audio_rest (E : Decls) (us : List MEDIA_PACKET) :
    ∀ st : rtc_publisher, st.first_flv_audio_ = false → 0 < st.clock_rate_ →
      (∀ x ∈ us, x.av_type_ ≠ .MEDIA_VIDEO_TYPE) →
      ∃ outs : List MEDIA_PACKET,
        run E st (us.map Op.media_output) = some (st, outs.map (rtmp_call st)) ∧
        outs.map some = us.map (audio_out E st) := by
  induction us with
  | nil => intro st _ _ _; exact ⟨[], rfl, rfl⟩
  | cons u us ih =>
    intro st hf hcr ha
    have hu : u.av_type_ ≠ .MEDIA_VIDEO_TYPE := ha u (List.mem_cons_self _ _)
    obtain ⟨out, ho, he⟩ := audio_emit_of_pos E st u [] hcr
    obtain ⟨outs, hr, hm⟩ := ih st hf hcr (fun x hx => ha x (List.mem_cons_of_mem _ hx))
    have hstep : step E st (Op.media_output u) = some (st, [rtmp_call st out]) := by
      simp only [step, media_packet_output, hu, hf, if_false, Bool.false_eq_true]
      exact he
    refine ⟨out :: outs, ?_, ?_⟩
    · simp only [List.map_cons, run, hstep, hr, List.singleton_append]
    · simp only [List.map_cons, ho, hm]

/-- What `audio_out` returns, when it returns: the unit with the FLV tag, its buffer
being the header-injection step applied to the unit with its own bytes. -/
theorem audio_out_eq (E : Decls) (st : rtc_publisher) (u out : MEDIA_PACKET)
    (h : audio_out E st u = some out) :
    out.is_key_frame_ = u.is_key_frame_ ∧ out.is_seq_hdr_ = u.is_seq_hdr_ ∧
    out.av_type_ = u.av_type_ ∧ out.fmt_type_ = .MEDIA_FORMAT_FLV ∧
    ∃ q : MEDIA_PACKET, out.buffer = E.flv_media_header_buffer q ∧ q.buffer = u.buffer := by
  unfold audio_out at h
  simp only [Option.map_eq_some'] at h
  obtain ⟨o, ho, rfl⟩ := h
  obtain ⟨q, rfl, hb, hk, hs, ha, -⟩ := set_rtmp_info_eq E st u o ho
  exact ⟨hk, hs, ha, rfl, q, rfl, hb⟩

/-- C12 (as amended): on a publisher whose first-audio flag is still set (as after
construction) and whose clock rate is positive, a non-empty sequence of audio
units `u :: us` passed one after the other to `media_packet_output` produces
exactly the calls `on_rtmp_callback` of `H, u, us...` in this order. `H` is the
synthesized header (header flag set, keyframe flag cleared), whose buffer is
what the header-injection step makes of a header unit `r` holding the constant
`opus_seq_data`; the others are the input units as lines 310-311 tag them
(`audio_out`: flags kept, FLV tag, buffer what the step makes of the unit's own
bytes). The flag is cleared afterwards, so no further header follows. -/
theorem audio_header_once (E : Decls) (st : rtc_publisher) (u : MEDIA_PACKET)
    (us : List MEDIA_PACKET) (hfirst : st.first_flv_audio_ = true)
    (hcr : 0 < st.clock_rate_)
    (haudio : ∀ x ∈ u :: us, x.av_type_ ≠ .MEDIA_VIDEO_TYPE) :
    ∃ (st' : rtc_publisher) (H r : MEDIA_PACKET) (outs : List MEDIA_PACKET),
      run E st ((u :: us).map Op.media_output) =
        some (st', (H :: outs).map (rtmp_call st)) ∧
      H.is_seq_hdr_ = true ∧ H.is_key_frame_ = false ∧
      H.buffer = E.flv_media_header_buffer r ∧ r.buffer = opus_seq_data ∧
      r.is_seq_hdr_ = true ∧ r.is_key_frame_ = false ∧
      outs.map some = (u :: us).map (audio_out E st) ∧
      (∀ x o, (x, o) ∈ (u :: us).zip outs →
        o.is_key_frame_ = x.is_key_frame_ ∧ o.is_seq_hdr_ = x.is_seq_hdr_ ∧
        ∃ q : MEDIA_PACKET, o.buffer = E.flv_media_header_buffer q ∧ q.buffer = x.buffer) ∧
      st' = { st with first_flv_audio_ := false } := by
  have hu : u.av_type_ ≠ .MEDIA_VIDEO_TYPE := haudio u (List.mem_cons_self _ _)
  have hsome : (make_seq_pkt E st u opus_seq_data).isSome = true := by
    simp only [make_seq_pkt, set_rtmp_info_of_pos _ _ _ hcr, Option.map_some',
      Option.isSome_some]
  obtain ⟨H, hm⟩ := Option.isSome_iff_exists.mp hsome
  obtain ⟨h1, h2, -, r, h4, h5, h6, h7, -⟩ := make_seq_pkt_eq E st u H _ hm
  obtain ⟨out, ho, he⟩ :=
    audio_emit_of_pos E { st with first_flv_audio_ := false } u [rtmp_call st H] hcr
  obtain ⟨outs, hr, hmap⟩ :=
    run_audio_rest E us { st with first_flv_audio_ := false } rfl hcr
      (fun x hx => haudio x (List.mem_cons_of_mem _ hx))
  have hstep : step E st (Op.media_output u) =
      some ({ st with first_flv_audio_ := false }, [rtmp_call st H, rtmp_call st out]) := by
    simp only [step, media_packet_output, hu, hfirst, if_false, if_true, hm]
    exact he
  have ho' : some out = audio_out E st u := ho.symm
  have hmap' : outs.map some = us.map (audio_out E st) := hmap
  have hall : (out :: outs).map some = (u :: us).map (audio_out E st) := by
    simp only [List.map_cons, ho', hmap']
  refine ⟨_, H, r, out :: outs, ?_, h1, h2, h4, h5, h6, h7, hall, ?_, rfl⟩
  · simp only [List.map_cons, run, hstep, hr]
    rfl
  · intro x o hxo
    have hlen : (u :: us).length = (out :: outs).length := by
      have := congrArg List.length hall
      simpa using this.symm
    obtain ⟨i, hi, hx⟩ := List.getElem_of_mem hxo
    rw [List.getElem_zip] at hx
    have hi1 : i < (u :: us).length := by
      rw [List.length_zip] at hi; omega
    have hi2 : i < (out :: outs).length := by
      rw [List.length_zip] at hi; omega
    have e1 : ((out :: outs).map some)[i]? = ((u :: us).map (audio_out E st))[i]? := by
      rw [hall]
    rw [List.getElem?_map, List.getElem?_map, List.getElem?_eq_getElem hi2,
      List.getElem?_eq_getElem hi1] at e1
    simp only [Option.map_some', Option.some.injEq] at e1
    have hx1 : (u :: us)[i] = x := congrArg Prod.fst hx
    have hx2 : (out :: outs)[i] = o := congrArg Prod.snd hx
    rw [hx1, hx2] at e1
    obtain ⟨a1, a2, -, -, q, a5, a6⟩ := audio_out_eq E st x o e1.symm
    exact ⟨a1, a2, q, a5, a6⟩

theorem audio_header_once_witness :
    audio_pub.first_flv_audio_ = true ∧ 0 < audio_pub.clock_rate_ ∧
    (∀ x ∈ audio_unit 960 [1, 2] :: [audio_unit 1920 [3], audio_unit 2880 [4, 5]],
      x.av_type_ ≠ .MEDIA_VIDEO_TYPE) ∧
    (rtmp_output ((run decls32 audio_pub
        ((audio_unit 960 [1, 2] :: [audio_unit 1920 [3], audio_unit 2880 [4, 5]]).map
          Op.media_output)).getD (audio_pub, [])).2).map
      (fun p => (p.is_seq_hdr_, p.dts_, p.buffer)) =
      [(true, 20, 175 :: 1 :: opus_seq_data), (false, 20, [175, 1, 1, 2]),
       (false, 40, [175, 1, 3]), (false, 60, [175, 1, 4, 5])] ∧
    ∃ (st' : rtc_publisher) (H r : MEDIA_PACKET) (outs : List MEDIA_PACKET),
      run decls32 audio_pub
        ((audio_unit 960 [1, 2] :: [audio_unit 1920 [3], audio_unit 2880 [4, 5]]).map
          Op.media_output) =
        some (st', (H :: outs).map (rtmp_call audio_pub)) ∧
      H.is_seq_hdr_ = true ∧ H.is_key_frame_ = false ∧
      H.buffer = decls32.flv_media_header_buffer r ∧ r.buffer = opus_seq_data ∧
      r.is_seq_hdr_ = true ∧ r.is_key_frame_ = false ∧
      outs.map some =
        (audio_unit 960 [1, 2] :: [audio_unit 1920 [3], audio_unit 2880 [4, 5]]).map
          (audio_out decls32 audio_pub) ∧
      (∀ x o, (x, o) ∈
          (audio_unit 960 [1, 2] :: [audio_unit 1920 [3], audio_unit 2880 [4, 5]]).zip outs →
        o.is_key_frame_ = x.is_key_frame_ ∧ o.is_seq_hdr_ = x.is_seq_hdr_ ∧
        ∃ q : MEDIA_PACKET, o.buffer = decls32.flv_media_header_buffer q ∧
          q.buffer = x.buffer) ∧
      st' = { audio_pub with first_flv_audio_ := false } :=
  ⟨by decide, by decide, by decide, by decide,
    audio_header_once decls32 audio_pub (audio_unit 960 [1, 2])
      [audio_unit 1920 [3], audio_unit 2880 [4, 5]] (by decide) (by decide) (by decide)⟩

/-- C12 (counterexample to the claim as stated): the audio publisher that the
constructor builds from `info_no_ssrc` is fresh (first-audio flag set) and has
clock rate 0; an audio unit passed to it delivers nothing, `media_packet_output`
having no result (the division of line 330 is by zero). Moreover, on `audio_pub`
with the header-injection step `flv_header_in_front`, the header delivered ahead
of the first unit holds two injected bytes in front of `opus_seq_data`. -/
theorem audio_on_clock_rate_zero :
    (construct members_init "room" "user" info_no_ssrc).get_built.map
      (fun p => (p.media_type_, p.first_flv_audio_, p.clock_rate_)) =
      some ("audio", true, 0) ∧
    (construct members_init "room" "user" info_no_ssrc).get_built.map
      (fun p => run decls32 p [Op.media_output (audio_unit 960 [1, 2])]) = some none ∧
    (rtmp_output ((run decls32 audio_pub
        [Op.media_output (audio_unit 960 [1, 2])]).getD (audio_pub, [])).2).map
      (fun p => p.buffer) = [175 :: 1 :: opus_seq_data, [175, 1, 1, 2]] := by
  decide

/-! ### Headers of keyframes over a sequence -/

end RtcPublisher
